import Mathlib

/-!
# Shallow embedding of the rental-girlfriend backend's booking/ledger core

This file embeds, as executable Lean definitions, the parts of the backend
that the verified properties talk about:

* the booking state machine and ledger side effects of `updateBooking`
  (`controllers/users.js`, second bookings-controller section, the one that
  is exported last and therefore wins);
* the wallet transfer engine `performTransaction` / `paymentTransaction`
  (second transaction controller of the unnamed transactions file);
* `createWithdrawal` (`controllers/withdrawals.js`);
* the review aggregation `updateServiceReviewStats` and the review
  create/update/delete handlers (reviews-controller section of
  `models/User.js`);
* `getBooking` (second bookings-controller section).

Modelling conventions:

* Money values are integer currency units (`Nat` for amounts, `Int` for
  balances).  For integer `n` in the double-safe range, JavaScript's
  `Math.floor(n * 0.5)` equals `n / 2` and `Math.floor(n * 0.1)` equals
  `n / 10` in natural-number division, which is how the two splits are
  embedded.
* The persistence layer is modelled as in the repository's own unit tests:
  plain stores that keep every field a controller writes.  `Transaction`
  carries the `type`/`action`/`providerId`/`balanceAfter` fields the
  controllers write.  The one schema constraint that is load-bearing for
  control flow is kept: `Transaction` creation fails validation when the
  amount is not positive (schema `min: 0.01`).
* Request-body fields are modelled with `Option`; free-text fields that the
  claims never mention (dates, times, special requests) are omitted from the
  update body since they do not feed the ledger logic.
* Mongo's unanchored `$regex` note lookup is embedded as literal substring
  containment (service names are treated as regex-neutral text).
* Database writes that can fail mid-update are threaded through an explicit
  failure oracle `failOn : Nat → Bool` deciding whether the k-th transaction
  write of one request throws; `allOk` is the oracle under which every write
  succeeds.
-/

namespace RentalBackend

/-- Enum of booking statuses, from `models/Booking.js`. -/
def STATUS_ENUM : List String := ["pending", "confirmed", "completed", "cancelled"]

/-- Enum of payment statuses, from `models/Booking.js`. -/
def PAYMENT_STATUS_ENUM : List String := ["pending", "paid", "refunded", "partially_refunded"]

/-- Enum of cancellers, from `models/Booking.js`. -/
def CANCELLED_BY_ENUM : List String := ["customer", "provider"]

/-- A booking document (`models/Booking.js`); fields not read by the embedded
controllers (dates, times, hours, deposit, special requests) are omitted. -/
structure Booking where
  id : String
  customerId : String
  providerId : String
  serviceId : String
  serviceName : String
  totalAmount : Nat
  status : String
  paymentStatus : String
  cancelledBy : Option String := none
  refundAmount : Option Nat := none
deriving DecidableEq

/-- A ledger transaction record, with every field some embedded controller
writes (`models/Transaction.js` plus the fields the controllers add). -/
structure Tx where
  customerId : String
  amount : Nat
  currency : String := "THB"
  method : String := "topup"
  type : Option String := none
  action : Option String := none
  status : String := "completed"
  note : String := ""
  providerId : Option String := none
  balanceAfter : Option Int := none
deriving DecidableEq

/-- A payment record (`models/Payment.js` section); `refundedAt` is modelled
as a flag recording whether the timestamp has been set. -/
structure Payment where
  pid : String
  bookingId : String
  customerId : String
  providerId : String
  amount : Nat
  status : String := "pending"
  refundAmount : Nat := 0
  refundReason : String := ""
  refundedAt : Bool := false
deriving DecidableEq

/-- A service document (`models/Service.js`); only the fields the embedded
controllers touch. -/
structure Service where
  sid : String
  providerId : String
  name : String
  rating : Rat := 0
  reviewCount : Nat := 0
  bookingCount : Nat := 0
deriving DecidableEq

/-- A review document (`models/Review.js`). -/
structure Review where
  rid : String
  bookingId : String
  serviceId : String
  customerId : String
  rating : Rat
  comment : String := ""
deriving DecidableEq

/-- A withdrawal document (`models/Withdrawal.js` section). -/
structure Withdrawal where
  userId : String
  amount : Nat
  bankName : String
  accountNumber : String
  accountName : String
  status : String := "pending"
deriving DecidableEq

/-- A user account as the wallet engine consumes it: an id plus the mutable
`balance` field (the spec treats the user store as an external collaborator
exposing exactly this). -/
structure UserAcct where
  uid : String
  balance : Int := 0
deriving DecidableEq

/-- The authenticated identity injected by the auth middleware
(`req.user`). -/
structure Actor where
  id : String
  type : String
deriving DecidableEq

/-- The whole persistent state: one store per collection. -/
structure St where
  users : List UserAcct := []
  bookings : List Booking := []
  transactions : List Tx := []
  payments : List Payment := []
  services : List Service := []
  reviews : List Review := []
  withdrawals : List Withdrawal := []
deriving DecidableEq

/-- `Booking.findById`. -/
def findBooking (st : St) (id : String) : Option Booking :=
  st.bookings.find? (fun b => b.id == id)

/-- `booking.save()`: replace the stored document with the mutated one. -/
def saveBooking (st : St) (b : Booking) : St :=
  { st with bookings := st.bookings.map (fun x => if x.id == b.id then b else x) }

/-- `Service.findById`. -/
def findService (st : St) (id : String) : Option Service :=
  st.services.find? (fun s => s.sid == id)

/-- The failure oracle under which every ledger write succeeds. -/
def allOk : Nat → Bool := fun _ => false

/-- `Transaction.create`: fails when the schema validation rejects the
amount (`min: 0.01`, so a zero integer amount throws) or when the failure
oracle makes the k-th write of this request throw. -/
def txCreate (failOn : Nat → Bool) (k : Nat) (st : St) (t : Tx) : Option St :=
  if t.amount == 0 || failOn k then none
  else some { st with transactions := st.transactions ++ [t] }

/-- `canAccessBooking` from the bookings controller. -/
def canAccessBooking (b : Booking) (u : Actor) : Bool :=
  u.type == "admin" || b.customerId == u.id || b.providerId == u.id

/-- Boolean prefix test on character lists. -/
def isPrefixB : List Char → List Char → Bool
  | [], _ => true
  | _ :: _, [] => false
  | c :: cs, d :: ds => c == d && isPrefixB cs ds

/-- Boolean contiguous-sublist test on character lists. -/
def containsPat (pat : List Char) : List Char → Bool
  | [] => pat.isEmpty
  | c :: cs => isPrefixB pat (c :: cs) || containsPat pat cs

/-- `hay` contains `pat` as a literal substring; this embeds Mongo's
unanchored `$regex` match for regex-neutral patterns. -/
def strContains (hay pat : String) : Bool :=
  containsPat pat.toList hay.toList

/-- The Thai label of the cancelling party used in refund notes. -/
def cancellerLabel (cb : String) : String :=
  if cb == "provider" then "ผู้ให้บริการ" else "ลูกค้า"

/-- Note text of a refund transaction. -/
def refundNote (serviceName cb : String) : String :=
  "คืนเงิน - " ++ serviceName ++ " (ยกเลิกโดย" ++ cancellerLabel cb ++ ")"

/-- Note text of a cancellation-compensation transaction. -/
def compNote (serviceName : String) : String :=
  "ค่าชดเชยการยกเลิก - " ++ serviceName ++ " (ลูกค้ายกเลิก)"

/-- Note text (and lookup pattern) of a provider-earning transaction. -/
def earnNote (serviceName : String) : String :=
  "รายได้จากการให้บริการ - " ++ serviceName

/-- JavaScript falsiness of the stored `refundAmount` (`undefined` or `0`):
the negation of the controller's `alreadyProcessed` test. -/
def refundFalsy : Option Nat → Bool
  | none => true
  | some r => r == 0

/-- Request body of `updateBooking`; amounts are present-and-numeric or
absent, mirroring the `toNumber` merge. -/
structure UpdateBookingBody where
  status : Option String := none
  paymentStatus : Option String := none
  cancelledBy : Option String := none
  refundAmount : Option Nat := none
  totalAmount : Option Nat := none
deriving DecidableEq

/-- Responses of `updateBooking`, collapsed to their decision content. -/
inductive UpdateResp where
  | ok (b : Booking)
  | notAuthenticated
  | notFound
  | forbidden
  | invalidStatus
  | invalidPaymentStatus
  | ledgerWriteFailed
deriving DecidableEq

/-- The canceller recorded when an update moves a booking into `cancelled`:
the request's value when it is a valid enum member, otherwise inferred from
the acting user's role. -/
def inferredCancelledBy (body : UpdateBookingBody) (u : Actor) : String :=
  match body.cancelledBy with
  | some c =>
      if c != "" && CANCELLED_BY_ENUM.contains c then c
      else if u.type == "provider" then "provider" else "customer"
  | none => if u.type == "provider" then "provider" else "customer"

/-- Merge of the numeric body fields onto the loaded booking document. -/
def mergeNumeric (b : Booking) (body : UpdateBookingBody) : Booking :=
  let b1 := match body.totalAmount with
    | some n => { b with totalAmount := n }
    | none => b
  match body.refundAmount with
  | some n => { b1 with refundAmount := some n }
  | none => b1

/-- Effect of the (already validated) `status` body field: set the status
and set or clear `cancelledBy`. -/
def applyStatus (b : Booking) (body : UpdateBookingBody) (u : Actor) : Booking :=
  match body.status with
  | some s =>
      { b with status := s,
               cancelledBy := if s == "cancelled" then some (inferredCancelledBy body u) else none }
  | none => b

/-- Effect of the (already validated) `paymentStatus` body field. -/
def applyPayment (b : Booking) (body : UpdateBookingBody) : Booking :=
  match body.paymentStatus with
  | some p => { b with paymentStatus := p }
  | none => b

/-- The in-memory booking after all body-field merging of `updateBooking`. -/
def mergedBooking (b : Booking) (body : UpdateBookingBody) (u : Actor) : Booking :=
  applyPayment (applyStatus (mergeNumeric b body) body u) body

/-- The payment-record update performed after a successful refund write:
mark the booking's payment refunded if it exists and is not yet refunded. -/
def paymentRefundUpdate (st : St) (b : Booking) (refundV : Nat) (cb : String) : St :=
  match st.payments.find? (fun p => p.bookingId == b.id) with
  | none => st
  | some p =>
      if p.refundedAt then st
      else
        let p' := { p with status := b.paymentStatus,
                           refundAmount := refundV,
                           refundReason := "ยกเลิกโดย" ++ cancellerLabel cb,
                           refundedAt := true }
        { st with payments := st.payments.map (fun q => if q.pid == p.pid then p' else q) }

/-- The refund amount the policy computes for a canceller. -/
def refundOf (cb : String) (total : Nat) : Nat :=
  if cb == "provider" then total
  else if cb == "customer" then total / 2 else 0

/-- The provider compensation the policy computes for a canceller. -/
def compOf (cb : String) (total : Nat) : Nat :=
  if cb == "customer" then total - total / 2 else 0

/-- The refund transaction document created for the customer. -/
def refundTxOf (b : Booking) (cb : String) (refundV : Nat) : Tx :=
  { customerId := b.customerId, amount := refundV, currency := "THB",
    method := "refund", type := some "refund", status := "completed",
    note := refundNote b.serviceName cb }

/-- The compensation transaction document created for the provider. -/
def compTxOf (b : Booking) (compV : Nat) : Tx :=
  { customerId := b.providerId, amount := compV, currency := "THB",
    method := "compensation", type := some "topup", status := "completed",
    note := compNote b.serviceName }

/-- The in-memory booking after the refund block records the computed
refund amount. -/
def refundedBooking (b : Booking) (cb : String) : Booking :=
  if cb == "provider" || cb == "customer" then
    { b with refundAmount := some (refundOf cb b.totalAmount) }
  else b

/-- The refund leg: when the computed refund is positive, write the refund
transaction and update the payment record; the error carries the state at
the throw. -/
def refundLeg (failOn : Nat → Bool) (st : St) (b : Booking) (cb : String) :
    Except St (St × Nat) :=
  if refundOf cb b.totalAmount > 0 then
    match txCreate failOn 0 st (refundTxOf b cb (refundOf cb b.totalAmount)) with
    | none => Except.error st
    | some st1 =>
        Except.ok
          (paymentRefundUpdate st1 (refundedBooking b cb) (refundOf cb b.totalAmount) cb, 1)
  else Except.ok (st, 0)

/-- The compensation leg: when the computed compensation is positive, write
the compensation transaction. -/
def compLeg (failOn : Nat → Bool) (k2 : Nat) (st2 : St) (b : Booking) (cb : String) :
    Except St (St × Booking × Nat) :=
  if compOf cb b.totalAmount > 0 then
    match txCreate failOn k2 st2 (compTxOf b (compOf cb b.totalAmount)) with
    | none => Except.error st2
    | some st3 => Except.ok (st3, refundedBooking b cb, k2 + 1)
  else Except.ok (st2, refundedBooking b cb, k2)

/-- The refund block of `updateBooking` (lines 1168–1235): on the
cancelled-and-refunded transition with no recorded refund, compute the
split, write the refund and compensation transactions and update the payment
record.  `Except.error` carries the state at the moment a ledger write
throws; the `Nat` in the result is the running write index for the
failure oracle. -/
def processRefund (failOn : Nat → Bool) (st : St) (b : Booking) :
    Except St (St × Booking × Nat) :=
  if b.status == "cancelled" && b.cancelledBy.isSome &&
      (b.paymentStatus == "refunded" || b.paymentStatus == "partially_refunded") then
    if !refundFalsy b.refundAmount then Except.ok (st, b, 0)
    else
      match b.cancelledBy with
      | none => Except.ok (st, b, 0)
      | some cb =>
        match refundLeg failOn st b cb with
        | Except.error stE => Except.error stE
        | Except.ok (st2, k2) => compLeg failOn k2 st2 b cb
  else Except.ok (st, b, 0)

/-- The state produced by a successful refund block that fired: the refund
transaction (when positive) with its payment-record update, then the
compensation transaction (when positive).  `b` is the merged in-memory
booking. -/
def cancelRunState (st : St) (b : Booking) (cb : String) : St :=
  let st1 := if refundOf cb b.totalAmount > 0 then
      paymentRefundUpdate
        { st with transactions :=
            st.transactions ++ [refundTxOf b cb (refundOf cb b.totalAmount)] }
        (refundedBooking b cb) (refundOf cb b.totalAmount) cb
    else st
  if compOf cb b.totalAmount > 0 then
    { st1 with transactions := st1.transactions ++ [compTxOf b (compOf cb b.totalAmount)] }
  else st1

/-- The lookup for an already-recorded provider earning of this booking's
provider and service name (the `$regex` note match). -/
def findEarning (st : St) (providerId serviceName : String) : Option Tx :=
  st.transactions.find? (fun t =>
    t.customerId == providerId && t.type == some "topup" &&
      strContains t.note (earnNote serviceName))

/-- The earning transaction document created for the provider. -/
def earnTxOf (b : Booking) : Tx :=
  { customerId := b.providerId, amount := b.totalAmount - b.totalAmount / 10,
    currency := "THB", method := "earning", type := some "topup",
    status := "completed", note := earnNote b.serviceName }

/-- The earning leg: write the provider-earning transaction unless one is
already recorded for this provider and service name. -/
def earnLeg (failOn : Nat → Bool) (k : Nat) (st : St) (b : Booking) : Option St :=
  match findEarning st b.providerId b.serviceName with
  | some _ => some st
  | none => txCreate failOn k st (earnTxOf b)

/-- The stored count of completed bookings of a service
(`Booking.countDocuments`). -/
def completedCount (st : St) (sid : String) : Nat :=
  (st.bookings.filter (fun bk => bk.serviceId == sid && bk.status == "completed")).length

/-- The `bookingCount` resynchronization of the booking's service. -/
def syncBookingCount (st : St) (b : Booking) : St :=
  match findService st b.serviceId with
  | none => st
  | some s =>
      if completedCount st b.serviceId != s.bookingCount then
        { st with services := (st.services.map
            (fun q => if q.sid == s.sid then
              { s with bookingCount := completedCount st b.serviceId } else q)) }
      else st

/-- The provider-earning block of `updateBooking` (lines 1237–1279): on a
completed-and-paid booking, credit the provider with the amount after the
10% platform commission unless an earning is already recorded, then resync
the service's `bookingCount` to the stored count of completed bookings. -/
def processEarning (failOn : Nat → Bool) (k : Nat) (st : St) (b : Booking) :
    Except St St :=
  if b.status == "completed" && b.paymentStatus == "paid" then
    match earnLeg failOn k st b with
    | none => Except.error st
    | some st1 => Except.ok (syncBookingCount st1 b)
  else Except.ok st

/-- `updateBooking` (second bookings controller, lines 1101–1303): load and
authorize, merge body fields with enum validation, run the refund and
earning side effects, save the booking.  A ledger write that throws aborts
the request before `booking.save()`. -/
def updateBooking (failOn : Nat → Bool) (st : St) (user : Option Actor)
    (bookingId : String) (body : UpdateBookingBody) : UpdateResp × St :=
  match user with
  | none => (UpdateResp.notAuthenticated, st)
  | some u =>
    match findBooking st bookingId with
    | none => (UpdateResp.notFound, st)
    | some b0 =>
      if !canAccessBooking b0 u then (UpdateResp.forbidden, st)
      else if (match body.status with
               | some s => !STATUS_ENUM.contains s
               | none => false) then (UpdateResp.invalidStatus, st)
      else if (match body.paymentStatus with
               | some p => !PAYMENT_STATUS_ENUM.contains p
               | none => false) then (UpdateResp.invalidPaymentStatus, st)
      else
        match processRefund failOn st (mergedBooking b0 body u) with
        | Except.error stE => (UpdateResp.ledgerWriteFailed, stE)
        | Except.ok (st1, b', k) =>
            match processEarning failOn k st1 b' with
            | Except.error stE => (UpdateResp.ledgerWriteFailed, stE)
            | Except.ok st2 => (UpdateResp.ok b', saveBooking st2 b')

/-- Responses of `getBooking`. -/
inductive GetResp where
  | ok (b : Booking)
  | notAuthenticated
  | notFound
deriving DecidableEq

/-- `getBooking` (second bookings controller, lines 978–998): authenticate,
load, and return the booking — with no participant or ownership check. -/
def getBooking (st : St) (user : Option Actor) (bookingId : String) : GetResp :=
  match user with
  | none => GetResp.notAuthenticated
  | some _ =>
    match findBooking st bookingId with
    | none => GetResp.notFound
    | some b => GetResp.ok b

/-- The transactions a call appended to the store. -/
def newTxs (st st' : St) : List Tx :=
  st'.transactions.drop st.transactions.length

/-- Sum of the amounts of a list of transactions. -/
def sumAmounts (l : List Tx) : Nat :=
  (l.map (fun t => t.amount)).sum

/-- The refund transactions credited to a customer. -/
def refundTxs (l : List Tx) (cid : String) : List Tx :=
  l.filter (fun t => t.method == "refund" && t.customerId == cid)

/-- The compensation transactions credited to a provider. -/
def compTxs (l : List Tx) (pid : String) : List Tx :=
  l.filter (fun t => t.method == "compensation" && t.customerId == pid)

/-- The earning transactions credited to a provider. -/
def earnTxs (l : List Tx) (pid : String) : List Tx :=
  l.filter (fun t => t.method == "earning" && t.customerId == pid)

/-! ## Wallet transfer engine (second transaction controller) -/

/-- Request body of the wallet operations. -/
structure TxBody where
  amount : Option Nat := none
  currency : Option String := none
  method : Option String := none
  status : Option String := none
  note : Option String := none
  customerId : Option String := none
  providerId : Option String := none
deriving DecidableEq

/-- Responses of the wallet operations. -/
inductive WalletResp where
  | created (t : Tx) (balance : Int)
  | notAuthenticated
  | invalidAmount
  | providerRequired
  | customerNotFound
  | providerNotFound
  | insufficientBalance
deriving DecidableEq

/-- The account the operation acts on: an admin may name a customer,
everyone else acts on their own account. -/
def resolveCustomerId (u : Actor) (body : TxBody) : String :=
  if u.type == "admin" then
    match body.customerId with
    | some c => if c == "" then u.id else c
    | none => u.id
  else u.id

/-- `User.findById` restricted to the balance-bearing account store. -/
def findUser (st : St) (uid : String) : Option UserAcct :=
  st.users.find? (fun a => a.uid == uid)

/-- `user.save()` after a balance mutation. -/
def setBalance (users : List UserAcct) (uid : String) (bal : Int) : List UserAcct :=
  users.map (fun a => if a.uid == uid then { a with balance := bal } else a)

/-- The balance stored for an account. -/
def userBalance (st : St) (uid : String) : Option Int :=
  (findUser st uid).map (fun a => a.balance)

/-- The transaction record `performTransaction` writes. -/
def walletTxOf (body : TxBody) (cid : String) (amount : Nat) (action : String)
    (balanceAfter : Int) : Tx :=
  { customerId := cid, amount := amount,
    currency := (body.currency.getD "THB"),
    method := body.method.getD "topup",
    status := body.status.getD "completed",
    note := body.note.getD "", action := some action,
    balanceAfter := some balanceAfter }

/-- `performTransaction` (lines 184–243): single-account credit or debit.
Validates the amount, resolves the account, applies the signed delta with
the non-negative-balance check, saves the balance and records the
transaction with the given `action`. -/
def performTransaction (st : St) (user : Option Actor) (body : TxBody)
    (action : String) : WalletResp × St :=
  match user with
  | none => (WalletResp.notAuthenticated, st)
  | some u =>
    match body.amount with
    | none => (WalletResp.invalidAmount, st)
    | some amount =>
      if amount == 0 then (WalletResp.invalidAmount, st)
      else
        let cid := resolveCustomerId u body
        match findUser st cid with
        | none => (WalletResp.customerNotFound, st)
        | some tu =>
          let delta : Int := if action == "debit" then -(amount : Int) else (amount : Int)
          let nextBalance := tu.balance + delta
          if nextBalance < 0 then (WalletResp.insufficientBalance, st)
          else
            let t := walletTxOf body cid amount action nextBalance
            (WalletResp.created t nextBalance,
              { st with users := setBalance st.users cid nextBalance,
                        transactions := st.transactions ++ [t] })

/-- The debit-leg transaction record `paymentTransaction` writes. -/
def paymentTxOf (body : TxBody) (cid pid : String) (amount : Nat)
    (balanceAfter : Int) : Tx :=
  { customerId := cid, amount := amount,
    currency := (body.currency.getD "THB"),
    method := body.method.getD "payment",
    status := body.status.getD "completed",
    note := body.note.getD "", action := some "debit",
    providerId := some pid,
    balanceAfter := some balanceAfter }

/-- `paymentTransaction` (lines 247–321): transfer from the acting customer
to a provider — debit the customer with the non-negative check, credit the
provider, record one debit-leg transaction carrying the provider id. -/
def paymentTransaction (st : St) (user : Option Actor) (body : TxBody) :
    WalletResp × St :=
  match user with
  | none => (WalletResp.notAuthenticated, st)
  | some u =>
    match body.amount with
    | none => (WalletResp.invalidAmount, st)
    | some amount =>
      if amount == 0 then (WalletResp.invalidAmount, st)
      else
        match body.providerId with
        | none => (WalletResp.providerRequired, st)
        | some pid =>
          let cid := resolveCustomerId u body
          match findUser st cid with
          | none => (WalletResp.customerNotFound, st)
          | some customer =>
            match findUser st pid with
            | none => (WalletResp.providerNotFound, st)
            | some provider =>
              let nextCustomerBalance := customer.balance - (amount : Int)
              if nextCustomerBalance < 0 then (WalletResp.insufficientBalance, st)
              else
                let newProviderBalance := provider.balance + (amount : Int)
                let users1 := setBalance st.users cid nextCustomerBalance
                let users2 := setBalance users1 pid newProviderBalance
                let t := paymentTxOf body cid pid amount nextCustomerBalance
                (WalletResp.created t nextCustomerBalance,
                  { st with users := users2,
                            transactions := st.transactions ++ [t] })

/-! ## Withdrawals (`controllers/withdrawals.js`) -/

/-- Request body of `createWithdrawal`. -/
structure WdBody where
  userId : Option String := none
  amount : Option Nat := none
  bankName : Option String := none
  accountNumber : Option String := none
  accountName : Option String := none
deriving DecidableEq

/-- Responses of `createWithdrawal`. -/
inductive WdResp where
  | created (w : Withdrawal)
  | minAmount
  | insufficientBalance
  | validationFailed
deriving DecidableEq

/-- The balance `createWithdrawal` derives by summing the user's
transactions: `topup` and `refund` amounts added, `payment` and
`withdrawal` amounts subtracted, anything else ignored. -/
def derivedBalance (st : St) (uid : String) : Int :=
  (st.transactions.filter (fun t => t.customerId == uid)).foldl
    (fun sum t =>
      if t.type == some "topup" || t.type == some "refund" then sum + (t.amount : Int)
      else if t.type == some "payment" || t.type == some "withdrawal" then sum - (t.amount : Int)
      else sum) 0

/-- The note of the withdrawal's debit transaction. -/
def withdrawalNote (bankName accountNumber : String) : String :=
  "ถอนเงินไปบัญชี " ++ bankName ++ " (" ++ accountNumber ++ ")"

/-- The user a withdrawal is created for: admins may name any user,
everyone else withdraws for themselves. -/
def wdTarget (u : Actor) (body : WdBody) : String :=
  if u.type == "admin" then
    (match body.userId with
     | some uid => if uid == "" then u.id else uid
     | none => u.id)
  else u.id

/-- The withdrawal document `createWithdrawal` writes (auto-approved). -/
def wdOf (target : String) (amount : Nat) (bn an am : String) : Withdrawal :=
  { userId := target, amount := amount, bankName := bn,
    accountNumber := an, accountName := am, status := "completed" }

/-- The matching debit transaction `createWithdrawal` writes. -/
def wdTxOf (target : String) (amount : Nat) (bn an : String) : Tx :=
  { customerId := target, amount := amount, currency := "THB",
    method := "bank_transfer", type := some "withdrawal",
    status := "completed", note := withdrawalNote bn an }

/-- `createWithdrawal` (lines 92–166): reject amounts below 100, reject
amounts above the derived balance, otherwise create an auto-approved
`completed` withdrawal plus its matching `withdrawal`-type transaction.
`Withdrawal.create` fails validation when a required bank field is
missing or empty. -/
def createWithdrawal (st : St) (u : Actor) (body : WdBody) : WdResp × St :=
  let target := wdTarget u body
  let amount := body.amount.getD 0
  if amount < 100 then (WdResp.minAmount, st)
  else
    let balance := derivedBalance st target
    if balance < (amount : Int) then (WdResp.insufficientBalance, st)
    else
      match body.bankName, body.accountNumber, body.accountName with
      | some bn, some an, some am =>
        if bn == "" || an == "" || am == "" then (WdResp.validationFailed, st)
        else
          (WdResp.created (wdOf target amount bn an am),
            { st with withdrawals := st.withdrawals ++ [wdOf target amount bn an am],
                      transactions := st.transactions ++ [wdTxOf target amount bn an] })
      | _, _, _ => (WdResp.validationFailed, st)

/-! ## Review aggregation (reviews controller section of `models/User.js`) -/

/-- Rounding to two decimal places: `Number(avg.toFixed(2))`. -/
def roundTo2 (q : Rat) : Rat :=
  (round (q * 100) : Int) / 100

/-- The reviews of one service. -/
def reviewsOf (st : St) (serviceId : String) : List Review :=
  st.reviews.filter (fun r => r.serviceId == serviceId)

/-- The rounded mean rating of a set of reviews; 0 when there are none
(the `$avg` aggregate followed by `toFixed(2)`). -/
def recomputedRating (rs : List Review) : Rat :=
  if rs.length == 0 then 0
  else roundTo2 (((rs.map (fun r => r.rating)).sum) / (rs.length : Rat))

/-- The mean-and-count recomputation written to the service: the service's
`rating` becomes the rounded mean of the remaining ratings (0 when none
remain) and `reviewCount` their number (`updateServiceReviewStats`,
lines 356–380). -/
def updateServiceReviewStats (st : St) (serviceId : String) : St :=
  { st with services := (st.services.map
      (fun s => if s.sid == serviceId then
        { s with rating := recomputedRating (reviewsOf st serviceId),
                 reviewCount := (reviewsOf st serviceId).length } else s)) }

/-- Request body of `createReview`. -/
structure CreateReviewBody where
  serviceId : String := ""
  bookingId : String := ""
  customerId : Option String := none
  rating : Option Rat := none
  comment : String := ""
deriving DecidableEq

/-- Request body of `updateReview`. -/
structure UpdateReviewBody where
  rating : Option Rat := none
  comment : Option String := none
deriving DecidableEq

/-- Responses of the review handlers. -/
inductive ReviewResp where
  | created (r : Review)
  | updated (r : Review)
  | deleted
  | notAuthenticated
  | forbidden
  | bookingIdRequired
  | serviceNotFound
  | bookingNotFound
  | reviewNotFound
  | serviceMismatch
  | customerMissing
  | ratingRequired
  | duplicateReview
  | validationFailed
deriving DecidableEq

/-- `Review.findById`. -/
def findReview (st : St) (id : String) : Option Review :=
  st.reviews.find? (fun r => r.rid == id)

/-- The review document `Review.create` persists. -/
def createdReview (booking : Booking) (rating : Rat) (comment : String)
    (freshId : String) : Review :=
  { rid := freshId, bookingId := booking.id, serviceId := booking.serviceId,
    customerId := booking.customerId, rating := rating, comment := comment }

/-- The review document after the `updateReview` field merge. -/
def updatedReview (r0 : Review) (body : UpdateReviewBody) : Review :=
  { r0 with rating := body.rating.getD r0.rating,
            comment := body.comment.getD r0.comment }

/-- `createReview` (lines 432–536): role and ownership checks, booking and
service cross-checks, then `Review.create` — which fails validation when the
rating is outside 0..5 and fails the unique `(serviceId, customerId)` index
on a duplicate — followed by the aggregate recompute.  `freshId` stands for
the generated uuid of the new document. -/
def createReview (st : St) (user : Option Actor) (body : CreateReviewBody)
    (freshId : String) : ReviewResp × St :=
  match user with
  | none => (ReviewResp.notAuthenticated, st)
  | some u =>
    if u.type != "customer" && u.type != "admin" then (ReviewResp.forbidden, st)
    else if body.bookingId == "" then (ReviewResp.bookingIdRequired, st)
    else
      match findService st body.serviceId with
      | none => (ReviewResp.serviceNotFound, st)
      | some service =>
        match findBooking st body.bookingId with
        | none => (ReviewResp.bookingNotFound, st)
        | some booking =>
          if booking.serviceId != service.sid then (ReviewResp.serviceMismatch, st)
          else if u.id == "" then (ReviewResp.customerMissing, st)
          else if u.type != "admin" && booking.customerId != u.id then
            (ReviewResp.forbidden, st)
          else if u.type == "admin" &&
              (match body.customerId with
               | some c => c != "" && c != booking.customerId
               | none => false) then (ReviewResp.customerMissing, st)
          else if booking.customerId == "" then (ReviewResp.customerMissing, st)
          else
            match body.rating with
            | none => (ReviewResp.ratingRequired, st)
            | some rating =>
              if rating < 0 || 5 < rating then (ReviewResp.validationFailed, st)
              else if st.reviews.any (fun r =>
                  r.serviceId == booking.serviceId &&
                    r.customerId == booking.customerId) then
                (ReviewResp.duplicateReview, st)
              else
                (ReviewResp.created (createdReview booking rating body.comment freshId),
                  updateServiceReviewStats
                    { st with reviews :=
                        st.reviews ++ [createdReview booking rating body.comment freshId] }
                    (createdReview booking rating body.comment freshId).serviceId)

/-- `review.save()`: replace the stored review document. -/
def saveReview (st : St) (r : Review) : St :=
  { st with reviews := st.reviews.map (fun x => if x.rid == r.rid then r else x) }

/-- `updateReview` (lines 538–588): owner-or-admin may change rating and
comment; a rating change triggers the aggregate recompute after save. -/
def updateReview (st : St) (user : Option Actor) (reviewId : String)
    (body : UpdateReviewBody) : ReviewResp × St :=
  match user with
  | none => (ReviewResp.notAuthenticated, st)
  | some u =>
    match findReview st reviewId with
    | none => (ReviewResp.reviewNotFound, st)
    | some r0 =>
      if u.type != "admin" && r0.customerId != u.id then (ReviewResp.forbidden, st)
      else
        match body.rating with
        | some q =>
          if q < 0 || 5 < q then (ReviewResp.validationFailed, st)
          else
            (ReviewResp.updated (updatedReview r0 body),
              updateServiceReviewStats (saveReview st (updatedReview r0 body))
                (updatedReview r0 body).serviceId)
        | none => (ReviewResp.updated (updatedReview r0 body), saveReview st (updatedReview r0 body))

/-- `deleteReview` (lines 590–614): owner-or-admin deletes the document,
then the aggregate is recomputed. -/
def deleteReview (st : St) (user : Option Actor) (reviewId : String) :
    ReviewResp × St :=
  match user with
  | none => (ReviewResp.notAuthenticated, st)
  | some u =>
    match findReview st reviewId with
    | none => (ReviewResp.reviewNotFound, st)
    | some r =>
      if u.type != "admin" && r.customerId != u.id then (ReviewResp.forbidden, st)
      else
        (ReviewResp.deleted,
          updateServiceReviewStats
            { st with reviews := st.reviews.eraseP (fun x => x.rid == r.rid) }
            r.serviceId)

/-! ## Concrete fixtures for witnesses and counterexamples -/

/-- A customer actor. -/
def cust1 : Actor := { id := "c1", type := "customer" }

/-- A provider actor. -/
def prov1 : Actor := { id := "p1", type := "provider" }

/-- An authenticated user unrelated to any fixture booking. -/
def outsider : Actor := { id := "z9", type := "customer" }

/-- A fixture booking between `cust1` and `prov1` on service `s1`. -/
def sampleBooking (bid : String) (total : Nat) (status pay : String) : Booking :=
  { id := bid, customerId := "c1", providerId := "p1", serviceId := "s1",
    serviceName := "Svc", totalAmount := total, status := status,
    paymentStatus := pay }

/-- A state holding only bookings. -/
def sampleSt (bs : List Booking) : St :=
  { bookings := bs }

/-- A cancel-with-refund request naming the canceller. -/
def cancelBody (cb : String) : UpdateBookingBody :=
  { status := some "cancelled", paymentStatus := some "refunded",
    cancelledBy := some cb }

/-- A mark-completed request. -/
def completeBody : UpdateBookingBody :=
  { status := some "completed", paymentStatus := some "paid" }

end RentalBackend

namespace RentalBackend

/-! ## Field equations for the merged booking -/

theorem mergedBooking_id (b : Booking) (body : UpdateBookingBody) (u : Actor) :
    (mergedBooking b body u).id = b.id := by
  unfold mergedBooking applyPayment applyStatus mergeNumeric
  cases body with
  | mk s p c r t => cases s <;> cases p <;> cases r <;> cases t <;> rfl

theorem mergedBooking_customerId (b : Booking) (body : UpdateBookingBody) (u : Actor) :
    (mergedBooking b body u).customerId = b.customerId := by
  unfold mergedBooking applyPayment applyStatus mergeNumeric
  cases body with
  | mk s p c r t => cases s <;> cases p <;> cases r <;> cases t <;> rfl

theorem mergedBooking_providerId (b : Booking) (body : UpdateBookingBody) (u : Actor) :
    (mergedBooking b body u).providerId = b.providerId := by
  unfold mergedBooking applyPayment applyStatus mergeNumeric
  cases body with
  | mk s p c r t => cases s <;> cases p <;> cases r <;> cases t <;> rfl

theorem mergedBooking_serviceId (b : Booking) (body : UpdateBookingBody) (u : Actor) :
    (mergedBooking b body u).serviceId = b.serviceId := by
  unfold mergedBooking applyPayment applyStatus mergeNumeric
  cases body with
  | mk s p c r t => cases s <;> cases p <;> cases r <;> cases t <;> rfl

theorem mergedBooking_serviceName (b : Booking) (body : UpdateBookingBody) (u : Actor) :
    (mergedBooking b body u).serviceName = b.serviceName := by
  unfold mergedBooking applyPayment applyStatus mergeNumeric
  cases body with
  | mk s p c r t => cases s <;> cases p <;> cases r <;> cases t <;> rfl

theorem mergedBooking_totalAmount (b : Booking) (body : UpdateBookingBody) (u : Actor) :
    (mergedBooking b body u).totalAmount = body.totalAmount.getD b.totalAmount := by
  unfold mergedBooking applyPayment applyStatus mergeNumeric
  cases body with
  | mk s p c r t => cases s <;> cases p <;> cases r <;> cases t <;> rfl

theorem mergedBooking_status (b : Booking) (body : UpdateBookingBody) (u : Actor) :
    (mergedBooking b body u).status = body.status.getD b.status := by
  unfold mergedBooking applyPayment applyStatus mergeNumeric
  cases body with
  | mk s p c r t => cases s <;> cases p <;> cases r <;> cases t <;> rfl

theorem mergedBooking_paymentStatus (b : Booking) (body : UpdateBookingBody) (u : Actor) :
    (mergedBooking b body u).paymentStatus = body.paymentStatus.getD b.paymentStatus := by
  unfold mergedBooking applyPayment applyStatus mergeNumeric
  cases body with
  | mk s p c r t => cases s <;> cases p <;> cases r <;> cases t <;> rfl

theorem mergedBooking_cancelledBy (b : Booking) (body : UpdateBookingBody) (u : Actor) :
    (mergedBooking b body u).cancelledBy =
      (match body.status with
       | some s => if s == "cancelled" then some (inferredCancelledBy body u) else none
       | none => b.cancelledBy) := by
  unfold mergedBooking applyPayment applyStatus mergeNumeric
  cases body with
  | mk s p c r t => cases s <;> cases p <;> cases r <;> cases t <;> rfl

theorem mergedBooking_refundAmount (b : Booking) (body : UpdateBookingBody) (u : Actor) :
    (mergedBooking b body u).refundAmount =
      (match body.refundAmount with
       | some n => some n
       | none => b.refundAmount) := by
  unfold mergedBooking applyPayment applyStatus mergeNumeric
  cases body with
  | mk s p c r t => cases s <;> cases p <;> cases r <;> cases t <;> rfl

/-! ## Store lemmas -/

theorem find_replace_of_find (l : List Booking) (bid : String) (b b' : Booking)
    (h : l.find? (fun x => x.id == bid) = some b) (hid : b'.id = b.id) :
    (l.map (fun x => if x.id == b'.id then b' else x)).find?
      (fun x => x.id == bid) = some b' := by
  induction l with
  | nil => simp at h
  | cons y ys ih =>
      by_cases hy : y.id = bid
      · have hb : b = y := by
          rw [List.find?_cons_of_pos _ (by simp [hy])] at h
          exact (Option.some.inj h).symm
        have hyb : y.id = b'.id := by rw [hid, hb]
        simp only [List.map_cons]
        have h1 : (if y.id == b'.id then b' else y) = b' := by simp [hyb]
        rw [h1]
        exact List.find?_cons_of_pos _ (by simp [hid, hb, hy])
      · have h' : ys.find? (fun x => x.id == bid) = some b := by
          rw [List.find?_cons_of_neg _ (by simp [hy])] at h
          exact h
        have hfb : b.id = bid := by
          have := List.find?_some h'
          simpa using this
        have hyb : ¬(y.id = b'.id) := by
          rw [hid, hfb]; exact hy
        simp only [List.map_cons]
        have h1 : (if y.id == b'.id then b' else y) = y := by simp [hyb]
        rw [h1]
        rw [List.find?_cons_of_neg _ (by simp [hy])]
        exact ih h'

theorem findBooking_saveBooking (st : St) (bid : String) (b b' : Booking)
    (h : findBooking st bid = some b) (hid : b'.id = b.id) :
    findBooking (saveBooking st b') bid = some b' := by
  unfold findBooking saveBooking at *
  exact find_replace_of_find st.bookings bid b b' h hid

theorem status_valid_cancelled : STATUS_ENUM.contains "cancelled" = true := by decide

theorem status_valid_completed : STATUS_ENUM.contains "completed" = true := by decide

theorem pay_valid_refunded : PAYMENT_STATUS_ENUM.contains "refunded" = true := by decide

theorem pay_valid_partial : PAYMENT_STATUS_ENUM.contains "partially_refunded" = true := by decide

theorem pay_valid_paid : PAYMENT_STATUS_ENUM.contains "paid" = true := by decide

/-- The refund block is a no-op when a refund is already recorded. -/
theorem processRefund_already (failOn : Nat → Bool) (st : St) (b : Booking)
    (h : refundFalsy b.refundAmount = false) :
    processRefund failOn st b = Except.ok (st, b, 0) := by
  unfold processRefund
  split
  · rw [h]; simp
  · rfl

/-- The earning block is a no-op off the completed-and-paid combination. -/
theorem processEarning_skip (failOn : Nat → Bool) (k : Nat) (st : St) (b : Booking)
    (h : (b.status == "completed" && b.paymentStatus == "paid") = false) :
    processEarning failOn k st b = Except.ok st := by
  unfold processEarning
  rw [h]
  simp

/-- **C9** — `updateBooking` copies a numeric `refundAmount` straight from the
request body onto the booking; a positive value supplied together with the
cancelled-and-refunded transition on a booking with no prior refund makes
the idempotency test see the refund as already processed, so no refund or
compensation transaction is created and the chosen value is persisted. -/
theorem updateBooking_accepts_refundAmount_from_body
    (st : St) (u : Actor) (bid : String) (b : Booking) (body : UpdateBookingBody) (r : Nat)
    (hfind : findBooking st bid = some b)
    (hacc : canAccessBooking b u = true)
    (hst : body.status = some "cancelled")
    (hps : body.paymentStatus = some "refunded" ∨
           body.paymentStatus = some "partially_refunded")
    (hra : body.refundAmount = some r) (hr : 0 < r)
    (hnoprior : refundFalsy b.refundAmount = true) :
    (updateBooking allOk st (some u) bid body).1 =
        UpdateResp.ok (mergedBooking b body u) ∧
    ((updateBooking allOk st (some u) bid body).2).transactions = st.transactions ∧
    findBooking (updateBooking allOk st (some u) bid body).2 bid =
        some (mergedBooking b body u) ∧
    (mergedBooking b body u).refundAmount = some r := by
  have hmra : (mergedBooking b body u).refundAmount = some r := by
    rw [mergedBooking_refundAmount, hra]
  have hmst : (mergedBooking b body u).status = "cancelled" := by
    rw [mergedBooking_status, hst]; rfl
  have hfalsy : refundFalsy (mergedBooking b body u).refundAmount = false := by
    rw [hmra]
    simp [refundFalsy]
    omega
  have hrefund := processRefund_already allOk st (mergedBooking b body u) hfalsy
  have hearn : processEarning allOk 0 st (mergedBooking b body u) = Except.ok st := by
    apply processEarning_skip
    rw [hmst]
    simp
  have hrun : updateBooking allOk st (some u) bid body =
      (UpdateResp.ok (mergedBooking b body u), saveBooking st (mergedBooking b body u)) := by
    unfold updateBooking
    rw [hfind]
    simp only [hacc, Bool.not_true, if_neg (by simp : ¬False)]
    rcases hps with hps | hps <;>
      simp [hst, hps, STATUS_ENUM, PAYMENT_STATUS_ENUM, hrefund, hearn]
  refine ⟨by rw [hrun], ?_, ?_, hmra⟩
  · rw [hrun]
    unfold saveBooking
    rfl
  · rw [hrun]
    exact findBooking_saveBooking st bid b (mergedBooking b body u) hfind
      (mergedBooking_id b body u)

/-- Witness for C9 at a concrete input: cancelling booking `b1` (1000 THB,
no prior refund) while supplying `refundAmount = 77` yields success, no new
transactions, and a persisted refund amount of 77. -/
theorem updateBooking_accepts_refundAmount_from_body_witness :
    (updateBooking allOk (sampleSt [sampleBooking "b1" 1000 "confirmed" "paid"])
        (some cust1) "b1"
        { status := some "cancelled", paymentStatus := some "refunded",
          refundAmount := some 77 }).2.transactions =
      (sampleSt [sampleBooking "b1" 1000 "confirmed" "paid"]).transactions ∧
    (mergedBooking (sampleBooking "b1" 1000 "confirmed" "paid")
        { status := some "cancelled", paymentStatus := some "refunded",
          refundAmount := some 77 } cust1).refundAmount = some 77 := by
  have h := updateBooking_accepts_refundAmount_from_body
    (sampleSt [sampleBooking "b1" 1000 "confirmed" "paid"]) cust1 "b1"
    (sampleBooking "b1" 1000 "confirmed" "paid")
    { status := some "cancelled", paymentStatus := some "refunded",
      refundAmount := some 77 } 77
    (by decide) (by decide) rfl (Or.inl rfl) rfl (by decide) (by decide)
  exact ⟨h.2.1, h.2.2.2⟩

/-- **C10** — `getBooking` performs no participant or ownership check: any
authenticated user, even one who is neither the booking's customer nor its
provider nor an admin, receives the booking with success. -/
theorem getBooking_no_ownership_check
    (st : St) (u : Actor) (bid : String) (b : Booking)
    (hfind : findBooking st bid = some b)
    (hcust : u.id ≠ b.customerId) (hprov : u.id ≠ b.providerId)
    (hadmin : u.type ≠ "admin") :
    getBooking st (some u) bid = GetResp.ok b := by
  unfold getBooking
  rw [hfind]

/-- Witness for C10 at a concrete input: the unrelated customer `z9` reads
booking `b1` between `c1` and `p1` successfully. -/
theorem getBooking_no_ownership_check_witness :
    getBooking (sampleSt [sampleBooking "b1" 1000 "confirmed" "paid"])
        (some outsider) "b1" =
      GetResp.ok (sampleBooking "b1" 1000 "confirmed" "paid") := by
  exact getBooking_no_ownership_check
    (sampleSt [sampleBooking "b1" 1000 "confirmed" "paid"]) outsider "b1"
    (sampleBooking "b1" 1000 "confirmed" "paid")
    (by decide) (by decide) (by decide) (by decide)

/-! ## Account-store lemmas -/

theorem find_setBalance_self (users : List UserAcct) (uid : String) (bal : Int)
    (acct : UserAcct) (h : users.find? (fun a => a.uid == uid) = some acct) :
    (setBalance users uid bal).find? (fun a => a.uid == uid) =
      some { acct with balance := bal } := by
  induction users with
  | nil => simp at h
  | cons y ys ih =>
      unfold setBalance
      by_cases hy : y.uid = uid
      · have hb : acct = y := by
          rw [List.find?_cons_of_pos _ (by simp [hy])] at h
          exact (Option.some.inj h).symm
        simp only [List.map_cons]
        have h1 : (if y.uid == uid then { y with balance := bal } else y) =
            { y with balance := bal } := by simp [hy]
        rw [h1]
        rw [List.find?_cons_of_pos _ (by simp [hy])]
        rw [hb]
      · have h' : ys.find? (fun a => a.uid == uid) = some acct := by
          rw [List.find?_cons_of_neg _ (by simp [hy])] at h
          exact h
        simp only [List.map_cons]
        have h1 : (if y.uid == uid then { y with balance := bal } else y) = y := by
          simp [hy]
        rw [h1]
        rw [List.find?_cons_of_neg _ (by simp [hy])]
        exact ih h'

theorem find_setBalance_other (users : List UserAcct) (uid uid' : String) (bal : Int)
    (h : ¬(uid = uid')) :
    (setBalance users uid' bal).find? (fun a => a.uid == uid) =
      users.find? (fun a => a.uid == uid) := by
  induction users with
  | nil => rfl
  | cons y ys ih =>
      unfold setBalance at *
      simp only [List.map_cons]
      by_cases hy : y.uid = uid'
      · have hne : ¬(y.uid = uid) := by rw [hy]; exact fun hc => h hc.symm
        have h1 : (if y.uid == uid' then { y with balance := bal } else y) =
            { y with balance := bal } := by simp [hy]
        rw [h1]
        rw [List.find?_cons_of_neg _ (by simp [hne])]
        rw [List.find?_cons_of_neg _ (by simp [hne])]
        exact ih
      · have h1 : (if y.uid == uid' then { y with balance := bal } else y) = y := by
          simp [hy]
        rw [h1]
        by_cases hu : y.uid = uid
        · rw [List.find?_cons_of_pos _ (by simp [hu])]
          rw [List.find?_cons_of_pos _ (by simp [hu])]
        · rw [List.find?_cons_of_neg _ (by simp [hu])]
          rw [List.find?_cons_of_neg _ (by simp [hu])]
          exact ih

/-- **C5** — the wallet engine preserves non-negative balances: a debit or
payment whose amount exceeds the payer's balance fails with the
insufficient-balance error and leaves the whole state (hence every account
balance) unchanged; otherwise the payer's resulting stored balance is
non-negative and a transaction with `action = "debit"` is appended. -/
theorem wallet_nonnegative_balances
    (st : St) (u : Actor) (body : TxBody) (a : Nat) (acct pacct : UserAcct)
    (pid : String)
    (hamt : body.amount = some a) (ha : 0 < a)
    (hacct : findUser st (resolveCustomerId u body) = some acct)
    (hpid : body.providerId = some pid)
    (hpacct : findUser st pid = some pacct) :
    (acct.balance < (a : Int) →
        performTransaction st (some u) body "debit" =
          (WalletResp.insufficientBalance, st)) ∧
    ((a : Int) ≤ acct.balance →
        0 ≤ acct.balance - (a : Int) ∧
        userBalance (performTransaction st (some u) body "debit").2
            (resolveCustomerId u body) = some (acct.balance - (a : Int)) ∧
        (performTransaction st (some u) body "debit").2.transactions =
          st.transactions ++
            [walletTxOf body (resolveCustomerId u body) a "debit"
              (acct.balance - (a : Int))] ∧
        (walletTxOf body (resolveCustomerId u body) a "debit"
            (acct.balance - (a : Int))).action = some "debit") ∧
    (acct.balance < (a : Int) →
        paymentTransaction st (some u) body = (WalletResp.insufficientBalance, st)) ∧
    ((a : Int) ≤ acct.balance →
        (∀ bal, userBalance (paymentTransaction st (some u) body).2
            (resolveCustomerId u body) = some bal → 0 ≤ bal) ∧
        (paymentTransaction st (some u) body).2.transactions =
          st.transactions ++
            [paymentTxOf body (resolveCustomerId u body) pid a
              (acct.balance - (a : Int))] ∧
        (paymentTxOf body (resolveCustomerId u body) pid a
            (acct.balance - (a : Int))).action = some "debit") := by
  have hA : (a == 0) = false := by simp; omega
  have hdebit : ∀ hside : Decidable (acct.balance + -(a : Int) < 0),
      performTransaction st (some u) body "debit" =
        if acct.balance + -(a : Int) < 0 then (WalletResp.insufficientBalance, st)
        else
          (WalletResp.created
              (walletTxOf body (resolveCustomerId u body) a "debit"
                (acct.balance + -(a : Int))) (acct.balance + -(a : Int)),
            { st with
                users := setBalance st.users (resolveCustomerId u body)
                  (acct.balance + -(a : Int)),
                transactions := st.transactions ++
                  [walletTxOf body (resolveCustomerId u body) a "debit"
                    (acct.balance + -(a : Int))] }) := by
    intro _
    unfold performTransaction
    simp only [hamt, hA, Bool.false_eq_true, if_false, hacct]
    simp
  have hpay : paymentTransaction st (some u) body =
      if acct.balance - (a : Int) < 0 then (WalletResp.insufficientBalance, st)
      else
        (WalletResp.created
            (paymentTxOf body (resolveCustomerId u body) pid a
              (acct.balance - (a : Int))) (acct.balance - (a : Int)),
          { st with
              users := setBalance
                (setBalance st.users (resolveCustomerId u body)
                  (acct.balance - (a : Int))) pid (pacct.balance + (a : Int)),
              transactions := st.transactions ++
                [paymentTxOf body (resolveCustomerId u body) pid a
                  (acct.balance - (a : Int))] }) := by
    unfold paymentTransaction
    simp only [hamt, hA, Bool.false_eq_true, if_false, hpid, hacct, hpacct]
  refine ⟨?_, ?_, ?_, ?_⟩
  · intro hlt
    rw [hdebit (by infer_instance), if_pos (by omega : acct.balance + -(a : Int) < 0)]
  · intro hge
    have heq : acct.balance + -(a : Int) = acct.balance - (a : Int) := by omega
    rw [hdebit (by infer_instance), if_neg (by omega : ¬(acct.balance + -(a : Int) < 0))]
    refine ⟨by omega, ?_, by rw [heq], rfl⟩
    unfold userBalance findUser
    simp only
    rw [find_setBalance_self st.users (resolveCustomerId u body)
      (acct.balance + -(a : Int)) acct hacct]
    simp [heq]
  · intro hlt
    rw [hpay, if_pos (by omega : acct.balance - (a : Int) < 0)]
  · intro hge
    rw [hpay, if_neg (by omega : ¬(acct.balance - (a : Int) < 0))]
    refine ⟨?_, rfl, rfl⟩
    intro bal hbal
    by_cases hcp : resolveCustomerId u body = pid
    · have hsame : pacct = acct := by
        rw [hcp] at hacct
        rw [hacct] at hpacct
        exact (Option.some.inj hpacct).symm
      unfold userBalance findUser at hbal
      simp only at hbal
      rw [← hcp] at hbal
      rw [find_setBalance_self _ (resolveCustomerId u body) (pacct.balance + (a : Int))
        { acct with balance := acct.balance - (a : Int) }
        (find_setBalance_self st.users (resolveCustomerId u body)
          (acct.balance - (a : Int)) acct hacct)] at hbal
      simp only [Option.map_some', Option.some.injEq] at hbal
      rw [← hbal, hsame]
      omega
    · unfold userBalance findUser at hbal
      simp only at hbal
      rw [find_setBalance_other _ (resolveCustomerId u body) pid
        (pacct.balance + (a : Int)) hcp] at hbal
      rw [find_setBalance_self st.users (resolveCustomerId u body)
        (acct.balance - (a : Int)) acct hacct] at hbal
      simp only [Option.map_some', Option.some.injEq] at hbal
      omega

/-- Witness for C5 at a concrete input: account `c1` holds 120; a debit of
200 is rejected leaving the state unchanged, while a payment of 20 to `p1`
leaves `c1` at 100 ≥ 0 with a debit-action transaction recorded. -/
theorem wallet_nonnegative_balances_witness :
    performTransaction
        { users := [{ uid := "c1", balance := 120 }, { uid := "p1", balance := 50 }] }
        (some cust1) { amount := some 200, providerId := some "p1" } "debit" =
      (WalletResp.insufficientBalance,
        { users := [{ uid := "c1", balance := 120 }, { uid := "p1", balance := 50 }] }) ∧
    (paymentTransaction
        { users := [{ uid := "c1", balance := 120 }, { uid := "p1", balance := 50 }] }
        (some cust1) { amount := some 20, providerId := some "p1" }).2.transactions =
      [paymentTxOf { amount := some 20, providerId := some "p1" } "c1" "p1" 20 100] := by
  constructor
  · have h := wallet_nonnegative_balances
      { users := [{ uid := "c1", balance := 120 }, { uid := "p1", balance := 50 }] }
      cust1 { amount := some 200, providerId := some "p1" } 200
      { uid := "c1", balance := 120 } { uid := "p1", balance := 50 } "p1"
      rfl (by decide) (by decide) rfl (by decide)
    exact h.1 (by decide)
  · have h := wallet_nonnegative_balances
      { users := [{ uid := "c1", balance := 120 }, { uid := "p1", balance := 50 }] }
      cust1 { amount := some 20, providerId := some "p1" } 20
      { uid := "c1", balance := 120 } { uid := "p1", balance := 50 } "p1"
      rfl (by decide) (by decide) rfl (by decide)
    have h2 := (h.2.2.2 (by decide)).2.1
    simpa [resolveCustomerId, cust1] using h2

/-- **C7** — `createWithdrawal` rejects a missing amount or one below 100,
rejects with the insufficient-balance error an amount above the balance
derived from the user's transactions (`topup`/`refund` added,
`payment`/`withdrawal` subtracted), and otherwise writes an immediately
`completed` withdrawal together with one matching `withdrawal`-type debit
transaction for the same amount. -/
theorem createWithdrawal_rules (st : St) (u : Actor) (body : WdBody) :
    (body.amount.getD 0 < 100 →
        createWithdrawal st u body = (WdResp.minAmount, st)) ∧
    (∀ a, body.amount = some a → 100 ≤ a →
        derivedBalance st (wdTarget u body) < (a : Int) →
        createWithdrawal st u body = (WdResp.insufficientBalance, st)) ∧
    (∀ a bn an am, body.amount = some a → 100 ≤ a →
        (a : Int) ≤ derivedBalance st (wdTarget u body) →
        body.bankName = some bn → bn ≠ "" →
        body.accountNumber = some an → an ≠ "" →
        body.accountName = some am → am ≠ "" →
        createWithdrawal st u body =
          (WdResp.created (wdOf (wdTarget u body) a bn an am),
            { st with
                withdrawals := st.withdrawals ++ [wdOf (wdTarget u body) a bn an am],
                transactions := st.transactions ++ [wdTxOf (wdTarget u body) a bn an] }) ∧
        (wdOf (wdTarget u body) a bn an am).status = "completed" ∧
        (wdOf (wdTarget u body) a bn an am).amount = a ∧
        (wdTxOf (wdTarget u body) a bn an).type = some "withdrawal" ∧
        (wdTxOf (wdTarget u body) a bn an).amount = a) := by
  refine ⟨?_, ?_, ?_⟩
  · intro hlt
    unfold createWithdrawal
    rw [if_pos hlt]
  · intro a ha h100 hbal
    unfold createWithdrawal
    rw [ha]
    simp only [Option.getD_some]
    rw [if_neg (by omega : ¬(a < 100))]
    rw [if_pos hbal]
  · intro a bn an am ha h100 hbal hbn hbne han hane ham hame
    unfold createWithdrawal
    rw [ha]
    simp only [Option.getD_some]
    rw [if_neg (by omega : ¬(a < 100))]
    rw [if_neg (by omega : ¬(derivedBalance st (wdTarget u body) < (a : Int)))]
    rw [hbn, han, ham]
    simp only
    rw [if_neg (by simp [hbne, hane, hame])]
    exact ⟨rfl, rfl, rfl, rfl, rfl⟩

/-- Witness for C7 at concrete inputs: with one 500-THB topup on record,
customer `c1` cannot withdraw 50 (minimum) but can withdraw 150, producing
a completed withdrawal and a `withdrawal`-type transaction of 150. -/
theorem createWithdrawal_rules_witness :
    createWithdrawal
        { transactions := [{ customerId := "c1", amount := 500, type := some "topup" }] }
        cust1 { amount := some 50, bankName := some "KBank",
                accountNumber := some "123", accountName := some "C One" } =
      (WdResp.minAmount,
        { transactions := [{ customerId := "c1", amount := 500, type := some "topup" }] }) ∧
    createWithdrawal
        { transactions := [{ customerId := "c1", amount := 500, type := some "topup" }] }
        cust1 { amount := some 150, bankName := some "KBank",
                accountNumber := some "123", accountName := some "C One" } =
      (WdResp.created (wdOf "c1" 150 "KBank" "123" "C One"),
        { transactions := [{ customerId := "c1", amount := 500, type := some "topup" },
            wdTxOf "c1" 150 "KBank" "123"],
          withdrawals := [wdOf "c1" 150 "KBank" "123" "C One"] }) := by
  constructor
  · exact (createWithdrawal_rules
      { transactions := [{ customerId := "c1", amount := 500, type := some "topup" }] }
      cust1 { amount := some 50, bankName := some "KBank",
              accountNumber := some "123", accountName := some "C One" }).1
      (by decide)
  · have h := ((createWithdrawal_rules
      { transactions := [{ customerId := "c1", amount := 500, type := some "topup" }] }
      cust1 { amount := some 150, bankName := some "KBank",
              accountNumber := some "123", accountName := some "C One" }).2.2
      150 "KBank" "123" "C One" rfl (by decide) (by decide) rfl (by decide)
      rfl (by decide) rfl (by decide)).1
    exact h

/-! ## Bookings-store preservation of the ledger side effects -/

theorem txCreate_bookings (failOn : Nat → Bool) (k : Nat) (st : St) (t : Tx)
    (st' : St) (h : txCreate failOn k st t = some st') :
    st'.bookings = st.bookings := by
  unfold txCreate at h
  split at h
  · exact Option.noConfusion h
  · cases h; rfl

theorem paymentRefundUpdate_bookings (st : St) (b : Booking) (r : Nat) (cb : String) :
    (paymentRefundUpdate st b r cb).bookings = st.bookings := by
  unfold paymentRefundUpdate
  split
  · rfl
  · split
    · rfl
    · rfl

theorem refundLeg_bookings_err (failOn : Nat → Bool) (st : St) (b : Booking)
    (cb : String) (stE : St) (h : refundLeg failOn st b cb = Except.error stE) :
    stE.bookings = st.bookings := by
  unfold refundLeg at h
  split at h
  · split at h
    · cases h; rfl
    · exact Except.noConfusion h
  · exact Except.noConfusion h

theorem refundLeg_bookings_ok (failOn : Nat → Bool) (st : St) (b : Booking)
    (cb : String) (st2 : St) (k2 : Nat)
    (h : refundLeg failOn st b cb = Except.ok (st2, k2)) :
    st2.bookings = st.bookings := by
  unfold refundLeg at h
  split at h
  · split at h
    · exact Except.noConfusion h
    · rename_i st1 htx
      cases h
      rw [paymentRefundUpdate_bookings]
      exact txCreate_bookings _ _ _ _ _ htx
  · cases h
    rfl

theorem compLeg_bookings_err (failOn : Nat → Bool) (k2 : Nat) (st2 : St)
    (b : Booking) (cb : String) (stE : St)
    (h : compLeg failOn k2 st2 b cb = Except.error stE) :
    stE.bookings = st2.bookings := by
  unfold compLeg at h
  split at h
  · split at h
    · cases h; rfl
    · exact Except.noConfusion h
  · exact Except.noConfusion h

theorem compLeg_bookings_ok (failOn : Nat → Bool) (k2 : Nat) (st2 : St)
    (b : Booking) (cb : String) (st3 : St) (b3 : Booking) (k3 : Nat)
    (h : compLeg failOn k2 st2 b cb = Except.ok (st3, b3, k3)) :
    st3.bookings = st2.bookings := by
  unfold compLeg at h
  split at h
  · split at h
    · exact Except.noConfusion h
    · rename_i st4 htx
      cases h
      exact txCreate_bookings _ _ _ _ _ htx
  · cases h
    rfl

theorem processRefund_bookings_err (failOn : Nat → Bool) (st : St) (b : Booking)
    (stE : St) (h : processRefund failOn st b = Except.error stE) :
    stE.bookings = st.bookings := by
  unfold processRefund at h
  split at h
  · split at h
    · exact Except.noConfusion h
    · split at h
      · exact Except.noConfusion h
      · rename_i cb
        split at h
        · rename_i stE1 hleg
          cases h
          exact refundLeg_bookings_err _ _ _ _ _ hleg
        · rename_i st2 k2 hleg
          have h2 := compLeg_bookings_err _ _ _ _ _ _ h
          rw [h2]
          exact refundLeg_bookings_ok _ _ _ _ _ _ hleg
  · exact Except.noConfusion h

theorem processRefund_bookings_ok (failOn : Nat → Bool) (st : St) (b : Booking)
    (st1 : St) (b1 : Booking) (k1 : Nat)
    (h : processRefund failOn st b = Except.ok (st1, b1, k1)) :
    st1.bookings = st.bookings := by
  unfold processRefund at h
  split at h
  · split at h
    · cases h; rfl
    · split at h
      · cases h; rfl
      · rename_i cb
        split at h
        · exact Except.noConfusion h
        · rename_i st2 k2 hleg
          have h2 := compLeg_bookings_ok _ _ _ _ _ _ _ _ h
          rw [h2]
          exact refundLeg_bookings_ok _ _ _ _ _ _ hleg
  · cases h; rfl

theorem earnLeg_bookings (failOn : Nat → Bool) (k : Nat) (st : St) (b : Booking)
    (st1 : St) (h : earnLeg failOn k st b = some st1) :
    st1.bookings = st.bookings := by
  unfold earnLeg at h
  split at h
  · cases h; rfl
  · exact txCreate_bookings _ _ _ _ _ h

theorem syncBookingCount_bookings (st : St) (b : Booking) :
    (syncBookingCount st b).bookings = st.bookings := by
  unfold syncBookingCount
  split
  · rfl
  · split
    · rfl
    · rfl

theorem processEarning_bookings_err (failOn : Nat → Bool) (k : Nat) (st : St)
    (b : Booking) (stE : St) (h : processEarning failOn k st b = Except.error stE) :
    stE.bookings = st.bookings := by
  unfold processEarning at h
  split at h
  · split at h
    · cases h; rfl
    · exact Except.noConfusion h
  · exact Except.noConfusion h

theorem processEarning_bookings_ok (failOn : Nat → Bool) (k : Nat) (st : St)
    (b : Booking) (st2 : St) (h : processEarning failOn k st b = Except.ok st2) :
    st2.bookings = st.bookings := by
  unfold processEarning at h
  split at h
  · split at h
    · exact Except.noConfusion h
    · rename_i st1 hleg
      cases h
      rw [syncBookingCount_bookings]
      exact earnLeg_bookings _ _ _ _ _ hleg
  · cases h; rfl

/-- **C6** — a failing refund, compensation, or provider-earning ledger
write makes the whole `updateBooking` request fail, and the booking's new
status and payment status are not persisted: the bookings store is exactly
what it was before the request. -/
theorem updateBooking_ledger_failure_preserves_booking
    (failOn : Nat → Bool) (st : St) (user : Option Actor) (bid : String)
    (body : UpdateBookingBody) (resp : UpdateResp) (st' : St)
    (h : updateBooking failOn st user bid body = (resp, st'))
    (herr : resp = UpdateResp.ledgerWriteFailed) :
    st'.bookings = st.bookings := by
  subst herr
  unfold updateBooking at h
  split at h
  · cases h
  · rename_i u
    split at h
    · cases h
    · rename_i b0 hfind
      split at h
      · cases h
      · split at h
        · cases h
        · split at h
          · cases h
          · split at h
            · rename_i stE href
              cases h
              exact processRefund_bookings_err _ _ _ _ href
            · rename_i st1 b' k href
              split at h
              · rename_i stE hearn
                cases h
                have h1 := processEarning_bookings_err _ _ _ _ _ hearn
                rw [h1]
                exact processRefund_bookings_ok _ _ _ _ _ _ href
              · cases h

/-! ## Characterization of the side-effect blocks under `allOk` -/

theorem txCreate_allOk (k : Nat) (st : St) (t : Tx) (h : t.amount ≠ 0) :
    txCreate allOk k st t = some { st with transactions := st.transactions ++ [t] } := by
  unfold txCreate allOk
  simp [h]

theorem saveBooking_transactions (st : St) (b : Booking) :
    (saveBooking st b).transactions = st.transactions := rfl

theorem paymentRefundUpdate_transactions (st : St) (b : Booking) (r : Nat) (cb : String) :
    (paymentRefundUpdate st b r cb).transactions = st.transactions := by
  unfold paymentRefundUpdate
  split
  · rfl
  · split
    · rfl
    · rfl

theorem syncBookingCount_transactions (st : St) (b : Booking) :
    (syncBookingCount st b).transactions = st.transactions := by
  unfold syncBookingCount
  split
  · rfl
  · split
    · rfl
    · rfl

theorem cancelRunState_bookings (st : St) (b : Booking) (cb : String) :
    (cancelRunState st b cb).bookings = st.bookings := by
  unfold cancelRunState
  split
  · split
    · simp only [paymentRefundUpdate_bookings]
    · simp only [paymentRefundUpdate_bookings]
  · split
    · rfl
    · rfl

theorem cancelRunState_transactions (st : St) (b : Booking) (cb : String) :
    (cancelRunState st b cb).transactions =
      st.transactions ++
        (if refundOf cb b.totalAmount > 0 then
          [refundTxOf b cb (refundOf cb b.totalAmount)] else []) ++
        (if compOf cb b.totalAmount > 0 then
          [compTxOf b (compOf cb b.totalAmount)] else []) := by
  unfold cancelRunState
  by_cases h1 : refundOf cb b.totalAmount > 0 <;>
    by_cases h2 : compOf cb b.totalAmount > 0 <;>
      simp [h1, h2, paymentRefundUpdate_transactions]

theorem findBooking_ext (st1 st2 : St) (bid : String)
    (h : st1.bookings = st2.bookings) :
    findBooking st1 bid = findBooking st2 bid := by
  unfold findBooking
  rw [h]

theorem findEarning_ext (st1 st2 : St) (pid sn : String)
    (h : st1.transactions = st2.transactions) :
    findEarning st1 pid sn = findEarning st2 pid sn := by
  unfold findEarning
  rw [h]

theorem isPrefixB_refl (l : List Char) : isPrefixB l l = true := by
  induction l with
  | nil => rfl
  | cons c cs ih => simp [isPrefixB, ih]

theorem strContains_refl (s : String) : strContains s s = true := by
  unfold strContains
  cases h : s.toList with
  | nil => rfl
  | cons c cs =>
      unfold containsPat
      rw [isPrefixB_refl]
      rfl

/-- A freshly created earning transaction is found by the earning lookup. -/
theorem findEarning_after_create (st : St) (b : Booking)
    (hnone : findEarning st b.providerId b.serviceName = none) :
    findEarning { st with transactions := st.transactions ++ [earnTxOf b] }
      b.providerId b.serviceName = some (earnTxOf b) := by
  unfold findEarning at *
  simp only
  rw [List.find?_append, hnone]
  simp [earnTxOf, strContains_refl]

/-- The refund block fires on the cancelled-and-refunded transition with no
recorded refund: its outcome is `cancelRunState` and the booking with the
recorded refund amount. -/
theorem processRefund_fires (st : St) (b : Booking) (cb : String)
    (hstat : b.status = "cancelled") (hcb : b.cancelledBy = some cb)
    (hps : b.paymentStatus = "refunded" ∨ b.paymentStatus = "partially_refunded")
    (hfalsy : refundFalsy b.refundAmount = true) :
    ∃ k, processRefund allOk st b =
      Except.ok (cancelRunState st b cb, refundedBooking b cb, k) := by
  have hguard : (b.status == "cancelled" && b.cancelledBy.isSome &&
      (b.paymentStatus == "refunded" || b.paymentStatus == "partially_refunded")) = true := by
    rcases hps with h | h <;> simp [hstat, hcb, h]
  unfold processRefund
  rw [hguard, hfalsy, hcb]
  simp only [Bool.not_true, Bool.false_eq_true, if_false, if_true]
  have hrl : refundLeg allOk st b cb =
      (if refundOf cb b.totalAmount > 0 then
        Except.ok (paymentRefundUpdate
          { st with transactions :=
              st.transactions ++ [refundTxOf b cb (refundOf cb b.totalAmount)] }
          (refundedBooking b cb) (refundOf cb b.totalAmount) cb, 1)
      else Except.ok (st, 0)) := by
    unfold refundLeg
    by_cases h1 : refundOf cb b.totalAmount > 0
    · rw [if_pos h1, if_pos h1,
        txCreate_allOk 0 st _ (by simp [refundTxOf]; omega)]
    · rw [if_neg h1, if_neg h1]
  have hcl : ∀ k2 st2, compLeg allOk k2 st2 b cb =
      (if compOf cb b.totalAmount > 0 then
        Except.ok ({ st2 with transactions :=
            st2.transactions ++ [compTxOf b (compOf cb b.totalAmount)] },
          refundedBooking b cb, k2 + 1)
      else Except.ok (st2, refundedBooking b cb, k2)) := by
    intro k2 st2
    unfold compLeg
    by_cases h2 : compOf cb b.totalAmount > 0
    · rw [if_pos h2, if_pos h2,
        txCreate_allOk k2 st2 _ (by simp [compTxOf]; omega)]
    · rw [if_neg h2, if_neg h2]
  by_cases h1 : refundOf cb b.totalAmount > 0 <;>
    by_cases h2 : compOf cb b.totalAmount > 0 <;>
      rw [hrl] <;> simp only [h1, h2, if_pos, if_neg, if_true, if_false] <;>
        [exact ⟨2, by rw [hcl]; simp [cancelRunState, h1, h2]⟩;
         exact ⟨1, by rw [hcl]; simp [cancelRunState, h1, h2]⟩;
         exact ⟨1, by rw [hcl]; simp [cancelRunState, h1, h2]⟩;
         exact ⟨0, by rw [hcl]; simp [cancelRunState, h1, h2]⟩]

/-- The refund block is a no-op off the cancelled-and-refunded guard. -/
theorem processRefund_skip (failOn : Nat → Bool) (st : St) (b : Booking)
    (h : (b.status == "cancelled" && b.cancelledBy.isSome &&
      (b.paymentStatus == "refunded" || b.paymentStatus == "partially_refunded")) = false) :
    processRefund failOn st b = Except.ok (st, b, 0) := by
  unfold processRefund
  rw [h]
  simp

/-- The earning block creates the provider-earning transaction when none is
recorded and the amount is positive. -/
theorem processEarning_creates (k : Nat) (st : St) (b : Booking)
    (hstat : b.status = "completed") (hpay : b.paymentStatus = "paid")
    (hnone : findEarning st b.providerId b.serviceName = none)
    (hamt : (earnTxOf b).amount ≠ 0) :
    processEarning allOk k st b =
      Except.ok (syncBookingCount
        { st with transactions := st.transactions ++ [earnTxOf b] } b) := by
  unfold processEarning earnLeg
  rw [hnone]
  simp only [hstat, hpay]
  rw [txCreate_allOk k st _ hamt]
  simp

/-- The earning block skips the credit when an earning is already found. -/
theorem processEarning_found (failOn : Nat → Bool) (k : Nat) (st : St) (b : Booking)
    (e : Tx)
    (hstat : b.status = "completed") (hpay : b.paymentStatus = "paid")
    (hfound : findEarning st b.providerId b.serviceName = some e) :
    processEarning failOn k st b = Except.ok (syncBookingCount st b) := by
  unfold processEarning earnLeg
  rw [hfound]
  simp [hstat, hpay]

/-- Every inferred canceller is either the provider or the customer. -/
theorem inferredCancelledBy_cases (body : UpdateBookingBody) (u : Actor) :
    inferredCancelledBy body u = "provider" ∨ inferredCancelledBy body u = "customer" := by
  rcases hbc : body.cancelledBy with _ | c
  · unfold inferredCancelledBy
    rw [hbc]
    by_cases hp : u.type = "provider"
    · left; simp [hp]
    · right; simp [hp]
  · unfold inferredCancelledBy
    rw [hbc]
    by_cases hc : (c != "" && CANCELLED_BY_ENUM.contains c) = true
    · have hmem : c ∈ CANCELLED_BY_ENUM := by
        simp at hc
        exact hc.2
      simp [CANCELLED_BY_ENUM] at hmem
      rcases hmem with h | h
      · right
        simp [hc, h]
        intro hx
        simp [CANCELLED_BY_ENUM] at hx
      · left
        simp [hc, h]
        intro hx
        simp [CANCELLED_BY_ENUM] at hx
    · by_cases hp : u.type = "provider"
      · left
        simp [hc, hp]
        intro h1 h2
        exact absurd (by simp [h1, h2]) hc
      · right
        simp [hc, hp]
        intro h1 h2
        exact absurd (by simp [h1, h2]) hc

/-! ## Field equations for the refund-recorded booking -/

theorem refundedBooking_id (b : Booking) (cb : String) :
    (refundedBooking b cb).id = b.id := by
  unfold refundedBooking; split <;> rfl

theorem refundedBooking_customerId (b : Booking) (cb : String) :
    (refundedBooking b cb).customerId = b.customerId := by
  unfold refundedBooking; split <;> rfl

theorem refundedBooking_providerId (b : Booking) (cb : String) :
    (refundedBooking b cb).providerId = b.providerId := by
  unfold refundedBooking; split <;> rfl

theorem refundedBooking_serviceId (b : Booking) (cb : String) :
    (refundedBooking b cb).serviceId = b.serviceId := by
  unfold refundedBooking; split <;> rfl

theorem refundedBooking_serviceName (b : Booking) (cb : String) :
    (refundedBooking b cb).serviceName = b.serviceName := by
  unfold refundedBooking; split <;> rfl

theorem refundedBooking_totalAmount (b : Booking) (cb : String) :
    (refundedBooking b cb).totalAmount = b.totalAmount := by
  unfold refundedBooking; split <;> rfl

theorem refundedBooking_status (b : Booking) (cb : String) :
    (refundedBooking b cb).status = b.status := by
  unfold refundedBooking; split <;> rfl

theorem refundedBooking_paymentStatus (b : Booking) (cb : String) :
    (refundedBooking b cb).paymentStatus = b.paymentStatus := by
  unfold refundedBooking; split <;> rfl

theorem refundedBooking_cancelledBy (b : Booking) (cb : String) :
    (refundedBooking b cb).cancelledBy = b.cancelledBy := by
  unfold refundedBooking; split <;> rfl

theorem refundedBooking_refundAmount_of (b : Booking) (cb : String)
    (h : cb = "provider" ∨ cb = "customer") :
    (refundedBooking b cb).refundAmount = some (refundOf cb b.totalAmount) := by
  unfold refundedBooking
  rcases h with h | h <;> simp [h]

/-- The full successful run of `updateBooking` on the cancelled-and-refunded
transition with no recorded refund. -/
theorem updateBooking_cancel_run
    (st : St) (u : Actor) (bid : String) (b : Booking) (body : UpdateBookingBody)
    (hfind : findBooking st bid = some b)
    (hacc : canAccessBooking b u = true)
    (hst : body.status = some "cancelled")
    (hps : body.paymentStatus = some "refunded" ∨
           body.paymentStatus = some "partially_refunded")
    (hnora : body.refundAmount = none)
    (hnoprior : refundFalsy b.refundAmount = true) :
    updateBooking allOk st (some u) bid body =
      (UpdateResp.ok
          (refundedBooking (mergedBooking b body u) (inferredCancelledBy body u)),
        saveBooking
          (cancelRunState st (mergedBooking b body u) (inferredCancelledBy body u))
          (refundedBooking (mergedBooking b body u) (inferredCancelledBy body u))) := by
  have hmst : (mergedBooking b body u).status = "cancelled" := by
    rw [mergedBooking_status, hst]; rfl
  have hmcb : (mergedBooking b body u).cancelledBy =
      some (inferredCancelledBy body u) := by
    rw [mergedBooking_cancelledBy, hst]
    simp
  have hmra : (mergedBooking b body u).refundAmount = b.refundAmount := by
    rw [mergedBooking_refundAmount, hnora]
  have hmps : (mergedBooking b body u).paymentStatus = "refunded" ∨
      (mergedBooking b body u).paymentStatus = "partially_refunded" := by
    rcases hps with h | h
    · left; rw [mergedBooking_paymentStatus, h]; rfl
    · right; rw [mergedBooking_paymentStatus, h]; rfl
  obtain ⟨k, hk⟩ := processRefund_fires st (mergedBooking b body u)
    (inferredCancelledBy body u) hmst hmcb hmps (by rw [hmra]; exact hnoprior)
  have hearn : processEarning allOk k
      (cancelRunState st (mergedBooking b body u) (inferredCancelledBy body u))
      (refundedBooking (mergedBooking b body u) (inferredCancelledBy body u)) =
      Except.ok (cancelRunState st (mergedBooking b body u)
        (inferredCancelledBy body u)) := by
    apply processEarning_skip
    rw [refundedBooking_status, hmst]
    simp
  unfold updateBooking
  rw [hfind]
  simp only [hacc, Bool.not_true, Bool.false_eq_true, if_false]
  rcases hps with h | h <;>
    simp [hst, h, STATUS_ENUM, PAYMENT_STATUS_ENUM, hk, hearn]

theorem newTxs_of_append (st st' : St) (l : List Tx)
    (h : st'.transactions = st.transactions ++ l) : newTxs st st' = l := by
  unfold newTxs
  rw [h]
  exact List.drop_left _ _

/-- **C1** — the refund split of a cancelled-and-refunded update with no
prior refund: a provider cancellation refunds the full `totalAmount` to the
customer with zero provider compensation; a customer cancellation refunds
`⌊totalAmount/2⌋` and credits the provider with the remainder. -/
theorem updateBooking_refund_split
    (st : St) (u : Actor) (bid : String) (b : Booking) (body : UpdateBookingBody)
    (hfind : findBooking st bid = some b)
    (hacc : canAccessBooking b u = true)
    (hst : body.status = some "cancelled")
    (hps : body.paymentStatus = some "refunded" ∨
           body.paymentStatus = some "partially_refunded")
    (hnora : body.refundAmount = none)
    (hnota : body.totalAmount = none)
    (hnoprior : refundFalsy b.refundAmount = true) :
    (inferredCancelledBy body u = "provider" →
        sumAmounts (refundTxs
            (newTxs st (updateBooking allOk st (some u) bid body).2) b.customerId) =
          b.totalAmount ∧
        sumAmounts (compTxs
            (newTxs st (updateBooking allOk st (some u) bid body).2) b.providerId) = 0) ∧
    (inferredCancelledBy body u = "customer" →
        sumAmounts (refundTxs
            (newTxs st (updateBooking allOk st (some u) bid body).2) b.customerId) =
          b.totalAmount / 2 ∧
        sumAmounts (compTxs
            (newTxs st (updateBooking allOk st (some u) bid body).2) b.providerId) =
          b.totalAmount - b.totalAmount / 2) := by
  have hrun := updateBooking_cancel_run st u bid b body hfind hacc hst hps hnora hnoprior
  have hmta : (mergedBooking b body u).totalAmount = b.totalAmount := by
    rw [mergedBooking_totalAmount, hnota]; rfl
  have hnew : newTxs st (updateBooking allOk st (some u) bid body).2 =
      (if refundOf (inferredCancelledBy body u) (mergedBooking b body u).totalAmount > 0
        then [refundTxOf (mergedBooking b body u) (inferredCancelledBy body u)
          (refundOf (inferredCancelledBy body u) (mergedBooking b body u).totalAmount)]
        else []) ++
      (if compOf (inferredCancelledBy body u) (mergedBooking b body u).totalAmount > 0
        then [compTxOf (mergedBooking b body u)
          (compOf (inferredCancelledBy body u) (mergedBooking b body u).totalAmount)]
        else []) := by
    apply newTxs_of_append
    rw [hrun, saveBooking_transactions, cancelRunState_transactions, List.append_assoc]
  constructor
  · intro hcb
    rw [hcb] at hnew
    have h1 : refundOf "provider" (mergedBooking b body u).totalAmount = b.totalAmount := by
      rw [hmta]; unfold refundOf; simp
    have h2 : compOf "provider" (mergedBooking b body u).totalAmount = 0 := by
      unfold compOf; simp
    rw [h1, h2] at hnew
    simp only [gt_iff_lt, Nat.lt_irrefl, if_false, List.append_nil] at hnew
    by_cases hpos : 0 < b.totalAmount
    · rw [if_pos hpos] at hnew
      rw [hnew]
      constructor
      · simp [refundTxs, sumAmounts, refundTxOf, mergedBooking_customerId]
      · simp [compTxs, sumAmounts, refundTxOf]
    · have h0 : b.totalAmount = 0 := by omega
      rw [if_neg hpos] at hnew
      rw [hnew]
      simp [refundTxs, compTxs, sumAmounts, h0]
  · intro hcb
    rw [hcb] at hnew
    have h1 : refundOf "customer" (mergedBooking b body u).totalAmount =
        b.totalAmount / 2 := by
      rw [hmta]; unfold refundOf; simp
    have h2 : compOf "customer" (mergedBooking b body u).totalAmount =
        b.totalAmount - b.totalAmount / 2 := by
      rw [hmta]; unfold compOf; simp
    rw [h1, h2] at hnew
    by_cases hr : 0 < b.totalAmount / 2 <;>
      by_cases hc : 0 < b.totalAmount - b.totalAmount / 2
    · rw [if_pos hr, if_pos hc] at hnew
      rw [hnew]
      constructor
      · simp [refundTxs, sumAmounts, refundTxOf, compTxOf, mergedBooking_customerId]
      · simp [compTxs, sumAmounts, refundTxOf, compTxOf, mergedBooking_providerId]
    · rw [if_pos hr, if_neg hc] at hnew
      rw [hnew]
      constructor
      · simp [refundTxs, sumAmounts, refundTxOf, mergedBooking_customerId]
      · simp [compTxs, sumAmounts, refundTxOf]
        omega
    · rw [if_neg hr, if_pos hc] at hnew
      rw [hnew]
      constructor
      · simp [refundTxs, sumAmounts, compTxOf]
        omega
      · simp [compTxs, sumAmounts, compTxOf, mergedBooking_providerId]
    · rw [if_neg hr, if_neg hc] at hnew
      rw [hnew]
      constructor
      · simp [refundTxs, sumAmounts]
        omega
      · simp [compTxs, sumAmounts]
        omega

/-- Witness for C1 at concrete inputs: customer-cancelling a 1001-THB paid
booking refunds 500 and compensates the provider 501. -/
theorem updateBooking_refund_split_witness :
    sumAmounts (refundTxs
        (newTxs (sampleSt [sampleBooking "b1" 1001 "confirmed" "paid"])
          (updateBooking allOk (sampleSt [sampleBooking "b1" 1001 "confirmed" "paid"])
            (some cust1) "b1" (cancelBody "customer")).2) "c1") = 500 ∧
    sumAmounts (compTxs
        (newTxs (sampleSt [sampleBooking "b1" 1001 "confirmed" "paid"])
          (updateBooking allOk (sampleSt [sampleBooking "b1" 1001 "confirmed" "paid"])
            (some cust1) "b1" (cancelBody "customer")).2) "p1") = 501 := by
  have h := (updateBooking_refund_split
    (sampleSt [sampleBooking "b1" 1001 "confirmed" "paid"]) cust1 "b1"
    (sampleBooking "b1" 1001 "confirmed" "paid") (cancelBody "customer")
    (by decide) (by decide) rfl (Or.inl rfl) rfl rfl (by decide)).2 (by decide)
  exact h

theorem canAccessBooking_fields (b b' : Booking) (u : Actor)
    (h1 : b'.customerId = b.customerId) (h2 : b'.providerId = b.providerId) :
    canAccessBooking b' u = canAccessBooking b u := by
  unfold canAccessBooking
  rw [h1, h2]

/-- A cancelled-and-refunded update on a booking whose merged refund amount
is already positive performs no ledger writes and just saves the booking. -/
theorem updateBooking_cancelled_already
    (st : St) (u : Actor) (bid : String) (b : Booking) (body : UpdateBookingBody)
    (hfind : findBooking st bid = some b)
    (hacc : canAccessBooking b u = true)
    (hst : body.status = some "cancelled")
    (hps : body.paymentStatus = some "refunded" ∨
           body.paymentStatus = some "partially_refunded")
    (hfalsy : refundFalsy (mergedBooking b body u).refundAmount = false) :
    updateBooking allOk st (some u) bid body =
      (UpdateResp.ok (mergedBooking b body u),
        saveBooking st (mergedBooking b body u)) := by
  have hmst : (mergedBooking b body u).status = "cancelled" := by
    rw [mergedBooking_status, hst]; rfl
  have hrefund := processRefund_already allOk st (mergedBooking b body u) hfalsy
  have hearn : processEarning allOk 0 st (mergedBooking b body u) = Except.ok st := by
    apply processEarning_skip
    rw [hmst]
    simp
  unfold updateBooking
  rw [hfind]
  simp only [hacc, Bool.not_true, Bool.false_eq_true, if_false]
  rcases hps with h | h <;>
    simp [hst, h, STATUS_ENUM, PAYMENT_STATUS_ENUM, hrefund, hearn]

/-- **C3 (amended)** — whenever the computed refund is positive (provider
cancellation of a positive amount, or customer cancellation with
`totalAmount ≥ 2`), repeating the same cancelled-and-refunded update
produces exactly one refund transaction and at most one compensation
transaction in total: the second call appends nothing. -/
theorem updateBooking_refund_idempotent_when_refund_positive
    (st : St) (u : Actor) (bid : String) (b : Booking) (body : UpdateBookingBody)
    (hfind : findBooking st bid = some b)
    (hacc : canAccessBooking b u = true)
    (hst : body.status = some "cancelled")
    (hps : body.paymentStatus = some "refunded" ∨
           body.paymentStatus = some "partially_refunded")
    (hnora : body.refundAmount = none)
    (hnota : body.totalAmount = none)
    (hnoprior : refundFalsy b.refundAmount = true)
    (hpos : 0 < refundOf (inferredCancelledBy body u) b.totalAmount) :
    (refundTxs (newTxs st (updateBooking allOk st (some u) bid body).2)
        b.customerId).length = 1 ∧
    (compTxs (newTxs st (updateBooking allOk st (some u) bid body).2)
        b.providerId).length ≤ 1 ∧
    (updateBooking allOk (updateBooking allOk st (some u) bid body).2
        (some u) bid body).2.transactions =
      (updateBooking allOk st (some u) bid body).2.transactions := by
  have hrun := updateBooking_cancel_run st u bid b body hfind hacc hst hps hnora hnoprior
  have hmta : (mergedBooking b body u).totalAmount = b.totalAmount := by
    rw [mergedBooking_totalAmount, hnota]; rfl
  have hnew : newTxs st (updateBooking allOk st (some u) bid body).2 =
      (if refundOf (inferredCancelledBy body u) (mergedBooking b body u).totalAmount > 0
        then [refundTxOf (mergedBooking b body u) (inferredCancelledBy body u)
          (refundOf (inferredCancelledBy body u) (mergedBooking b body u).totalAmount)]
        else []) ++
      (if compOf (inferredCancelledBy body u) (mergedBooking b body u).totalAmount > 0
        then [compTxOf (mergedBooking b body u)
          (compOf (inferredCancelledBy body u) (mergedBooking b body u).totalAmount)]
        else []) := by
    apply newTxs_of_append
    rw [hrun, saveBooking_transactions, cancelRunState_transactions, List.append_assoc]
  rw [hmta] at hnew
  rw [if_pos hpos] at hnew
  refine ⟨?_, ?_, ?_⟩
  · rw [hnew]
    by_cases hc : compOf (inferredCancelledBy body u) b.totalAmount > 0
    · rw [if_pos hc]
      simp [refundTxs, refundTxOf, compTxOf, mergedBooking_customerId]
    · rw [if_neg hc]
      simp [refundTxs, refundTxOf, mergedBooking_customerId]
  · rw [hnew]
    by_cases hc : compOf (inferredCancelledBy body u) b.totalAmount > 0
    · rw [if_pos hc]
      simp [compTxs, refundTxOf, compTxOf, mergedBooking_providerId]
    · rw [if_neg hc]
      simp [compTxs, refundTxOf]
  · have hid : (refundedBooking (mergedBooking b body u)
        (inferredCancelledBy body u)).id = b.id := by
      rw [refundedBooking_id, mergedBooking_id]
    have hfind1 : findBooking (updateBooking allOk st (some u) bid body).2 bid =
        some (refundedBooking (mergedBooking b body u) (inferredCancelledBy body u)) := by
      rw [hrun]
      apply findBooking_saveBooking _ _ b _ _ hid
      rw [findBooking_ext _ st bid (cancelRunState_bookings _ _ _)]
      exact hfind
    have hacc1 : canAccessBooking
        (refundedBooking (mergedBooking b body u) (inferredCancelledBy body u)) u = true := by
      rw [canAccessBooking_fields b
        (refundedBooking (mergedBooking b body u) (inferredCancelledBy body u)) u
        (by rw [refundedBooking_customerId, mergedBooking_customerId])
        (by rw [refundedBooking_providerId, mergedBooking_providerId])]
      exact hacc
    have hfalsy2 : refundFalsy (mergedBooking
        (refundedBooking (mergedBooking b body u) (inferredCancelledBy body u))
        body u).refundAmount = false := by
      rw [mergedBooking_refundAmount, hnora]
      rw [refundedBooking_refundAmount_of _ _ (inferredCancelledBy_cases body u)]
      rw [hmta]
      simp only [refundFalsy]
      simp
      omega
    have hrun2 := updateBooking_cancelled_already
      (updateBooking allOk st (some u) bid body).2 u bid
      (refundedBooking (mergedBooking b body u) (inferredCancelledBy body u)) body
      hfind1 hacc1 hst hps hfalsy2
    rw [hrun2]
    rfl

/-- Counterexample for C3 as stated: customer-cancelling a paid booking with
`totalAmount = 1` twice yields zero refund transactions and two compensation
transactions — the second call duplicates the compensation because the
recorded refund amount 0 does not mark the refund as processed. -/
theorem updateBooking_refund_idempotence_cex :
    (refundTxs (newTxs (sampleSt [sampleBooking "b1" 1 "confirmed" "paid"])
        (updateBooking allOk
          (updateBooking allOk (sampleSt [sampleBooking "b1" 1 "confirmed" "paid"])
            (some cust1) "b1" (cancelBody "customer")).2
          (some cust1) "b1" (cancelBody "customer")).2) "c1").length = 0 ∧
    (compTxs (newTxs (sampleSt [sampleBooking "b1" 1 "confirmed" "paid"])
        (updateBooking allOk
          (updateBooking allOk (sampleSt [sampleBooking "b1" 1 "confirmed" "paid"])
            (some cust1) "b1" (cancelBody "customer")).2
          (some cust1) "b1" (cancelBody "customer")).2) "p1").length = 2 := by
  decide

/-- Witness for the amended C3 at a concrete input: customer-cancelling a
1000-THB paid booking twice records one refund transaction, at most one
compensation transaction, and the second call appends nothing. -/
theorem updateBooking_refund_idempotent_when_refund_positive_witness :
    (refundTxs (newTxs (sampleSt [sampleBooking "b1" 1000 "confirmed" "paid"])
        (updateBooking allOk (sampleSt [sampleBooking "b1" 1000 "confirmed" "paid"])
          (some cust1) "b1" (cancelBody "customer")).2) "c1").length = 1 ∧
    (compTxs (newTxs (sampleSt [sampleBooking "b1" 1000 "confirmed" "paid"])
        (updateBooking allOk (sampleSt [sampleBooking "b1" 1000 "confirmed" "paid"])
          (some cust1) "b1" (cancelBody "customer")).2) "p1").length ≤ 1 ∧
    (updateBooking allOk
        (updateBooking allOk (sampleSt [sampleBooking "b1" 1000 "confirmed" "paid"])
          (some cust1) "b1" (cancelBody "customer")).2
        (some cust1) "b1" (cancelBody "customer")).2.transactions =
      (updateBooking allOk (sampleSt [sampleBooking "b1" 1000 "confirmed" "paid"])
        (some cust1) "b1" (cancelBody "customer")).2.transactions := by
  exact updateBooking_refund_idempotent_when_refund_positive
    (sampleSt [sampleBooking "b1" 1000 "confirmed" "paid"]) cust1 "b1"
    (sampleBooking "b1" 1000 "confirmed" "paid") (cancelBody "customer")
    (by decide) (by decide) rfl (Or.inl rfl) rfl rfl (by decide) (by decide)

/-- The full successful run of `updateBooking` marking a paid booking
completed when no earning is recorded and the amount is positive. -/
theorem updateBooking_complete_creates
    (st : St) (u : Actor) (bid : String) (b : Booking) (body : UpdateBookingBody)
    (hfind : findBooking st bid = some b)
    (hacc : canAccessBooking b u = true)
    (hst : body.status = some "completed")
    (hps : body.paymentStatus = some "paid")
    (hnota : body.totalAmount = none)
    (hpos : 1 ≤ b.totalAmount)
    (hnoearn : findEarning st b.providerId b.serviceName = none) :
    updateBooking allOk st (some u) bid body =
      (UpdateResp.ok (mergedBooking b body u),
        saveBooking
          (syncBookingCount
            { st with transactions :=
                st.transactions ++ [earnTxOf (mergedBooking b body u)] }
            (mergedBooking b body u))
          (mergedBooking b body u)) := by
  have hmst : (mergedBooking b body u).status = "completed" := by
    rw [mergedBooking_status, hst]; rfl
  have hmps : (mergedBooking b body u).paymentStatus = "paid" := by
    rw [mergedBooking_paymentStatus, hps]; rfl
  have hmta : (mergedBooking b body u).totalAmount = b.totalAmount := by
    rw [mergedBooking_totalAmount, hnota]; rfl
  have hrefund : processRefund allOk st (mergedBooking b body u) =
      Except.ok (st, mergedBooking b body u, 0) := by
    apply processRefund_skip
    rw [hmst]
    simp
  have hdiv : b.totalAmount / 10 < b.totalAmount :=
    Nat.div_lt_self (by omega) (by omega)
  have hearn := processEarning_creates 0 st (mergedBooking b body u) hmst hmps
    (by rw [mergedBooking_providerId, mergedBooking_serviceName]; exact hnoearn)
    (by simp [earnTxOf, hmta]; omega)
  unfold updateBooking
  rw [hfind]
  simp only [hacc, Bool.not_true, Bool.false_eq_true, if_false]
  simp [hst, hps, STATUS_ENUM, PAYMENT_STATUS_ENUM, hrefund, hearn]

/-- The full run of `updateBooking` marking a paid booking completed when an
earning for its provider and service name is already recorded: no write. -/
theorem updateBooking_complete_skips
    (st : St) (u : Actor) (bid : String) (b : Booking) (body : UpdateBookingBody)
    (e : Tx)
    (hfind : findBooking st bid = some b)
    (hacc : canAccessBooking b u = true)
    (hst : body.status = some "completed")
    (hps : body.paymentStatus = some "paid")
    (hfound : findEarning st b.providerId b.serviceName = some e) :
    updateBooking allOk st (some u) bid body =
      (UpdateResp.ok (mergedBooking b body u),
        saveBooking (syncBookingCount st (mergedBooking b body u))
          (mergedBooking b body u)) := by
  have hmst : (mergedBooking b body u).status = "completed" := by
    rw [mergedBooking_status, hst]; rfl
  have hmps : (mergedBooking b body u).paymentStatus = "paid" := by
    rw [mergedBooking_paymentStatus, hps]; rfl
  have hrefund : processRefund allOk st (mergedBooking b body u) =
      Except.ok (st, mergedBooking b body u, 0) := by
    apply processRefund_skip
    rw [hmst]
    simp
  have hearn := processEarning_found allOk 0 st (mergedBooking b body u) e hmst hmps
    (by rw [mergedBooking_providerId, mergedBooking_serviceName]; exact hfound)
  unfold updateBooking
  rw [hfind]
  simp only [hacc, Bool.not_true, Bool.false_eq_true, if_false]
  simp [hst, hps, STATUS_ENUM, PAYMENT_STATUS_ENUM, hrefund, hearn]

/-- **C2 (amended)** — marking a paid booking completed with no prior
earning recorded creates, for `totalAmount ≥ 1`, exactly one earning
transaction crediting the provider with
`totalAmount − ⌊totalAmount × 0.1⌋`; for `totalAmount = 0` the attempted
ledger write fails schema validation and the update errors instead. -/
theorem updateBooking_provider_earning
    (st : St) (u : Actor) (bid : String) (b : Booking) (body : UpdateBookingBody)
    (hfind : findBooking st bid = some b)
    (hacc : canAccessBooking b u = true)
    (hst : body.status = some "completed")
    (hps : body.paymentStatus = some "paid")
    (hnota : body.totalAmount = none)
    (hpos : 1 ≤ b.totalAmount)
    (hnoearn : findEarning st b.providerId b.serviceName = none) :
    (updateBooking allOk st (some u) bid body).1 =
        UpdateResp.ok (mergedBooking b body u) ∧
    newTxs st (updateBooking allOk st (some u) bid body).2 =
        [earnTxOf (mergedBooking b body u)] ∧
    (earnTxOf (mergedBooking b body u)).customerId = b.providerId ∧
    (earnTxOf (mergedBooking b body u)).amount =
        b.totalAmount - b.totalAmount / 10 := by
  have hrun := updateBooking_complete_creates st u bid b body hfind hacc hst hps
    hnota hpos hnoearn
  refine ⟨by rw [hrun], ?_, ?_, ?_⟩
  · apply newTxs_of_append
    rw [hrun, saveBooking_transactions, syncBookingCount_transactions]
  · simp [earnTxOf, mergedBooking_providerId]
  · simp [earnTxOf, mergedBooking_totalAmount, hnota]

/-- Counterexample for C2 as stated: completing a paid booking with
`totalAmount = 0` creates no earning transaction at all — the write of the
0-amount transaction fails validation and the update returns an error. -/
theorem updateBooking_provider_earning_cex :
    (updateBooking allOk (sampleSt [sampleBooking "b1" 0 "confirmed" "paid"])
        (some cust1) "b1" completeBody).1 = UpdateResp.ledgerWriteFailed ∧
    newTxs (sampleSt [sampleBooking "b1" 0 "confirmed" "paid"])
        (updateBooking allOk (sampleSt [sampleBooking "b1" 0 "confirmed" "paid"])
          (some cust1) "b1" completeBody).2 = [] := by
  decide

/-- Witness for the amended C2 at a concrete input: completing a paid
1500-THB booking credits the provider 1350 in one earning transaction. -/
theorem updateBooking_provider_earning_witness :
    newTxs (sampleSt [sampleBooking "b1" 1500 "confirmed" "paid"])
        (updateBooking allOk (sampleSt [sampleBooking "b1" 1500 "confirmed" "paid"])
          (some cust1) "b1" completeBody).2 =
      [earnTxOf (mergedBooking (sampleBooking "b1" 1500 "confirmed" "paid")
        completeBody cust1)] ∧
    (earnTxOf (mergedBooking (sampleBooking "b1" 1500 "confirmed" "paid")
        completeBody cust1)).amount = 1350 := by
  have h := updateBooking_provider_earning
    (sampleSt [sampleBooking "b1" 1500 "confirmed" "paid"]) cust1 "b1"
    (sampleBooking "b1" 1500 "confirmed" "paid") completeBody
    (by decide) (by decide) rfl rfl rfl (by decide) (by decide)
  exact ⟨h.2.1, by rw [h.2.2.2]; decide⟩

/-- **C4 (amended)** — the provider-earning side effect fires at most once
per (provider, service name): the triggering completed-and-paid update (for
`totalAmount ≥ 1`) creates exactly one earning transaction, replaying it
creates none, and any booking whose provider and service name already carry
a recorded earning — including a distinct completed-and-paid booking of the
same service — receives no earning transaction of its own. -/
theorem updateBooking_earning_once_per_service
    (st : St) (u : Actor) (bid : String) (b : Booking) (body : UpdateBookingBody)
    (hfind : findBooking st bid = some b)
    (hacc : canAccessBooking b u = true)
    (hst : body.status = some "completed")
    (hps : body.paymentStatus = some "paid")
    (hnota : body.totalAmount = none)
    (hpos : 1 ≤ b.totalAmount)
    (hnoearn : findEarning st b.providerId b.serviceName = none) :
    (updateBooking allOk st (some u) bid body).2.transactions =
        st.transactions ++ [earnTxOf (mergedBooking b body u)] ∧
    (updateBooking allOk (updateBooking allOk st (some u) bid body).2
        (some u) bid body).2.transactions =
      (updateBooking allOk st (some u) bid body).2.transactions ∧
    (∀ (st' : St) (bid2 : String) (b2 : Booking) (e : Tx),
        findBooking st' bid2 = some b2 →
        canAccessBooking b2 u = true →
        findEarning st' b2.providerId b2.serviceName = some e →
        (updateBooking allOk st' (some u) bid2 body).2.transactions =
          st'.transactions) := by
  have hrun := updateBooking_complete_creates st u bid b body hfind hacc hst hps
    hnota hpos hnoearn
  have hskips : ∀ (st' : St) (bid2 : String) (b2 : Booking) (e : Tx),
      findBooking st' bid2 = some b2 →
      canAccessBooking b2 u = true →
      findEarning st' b2.providerId b2.serviceName = some e →
      (updateBooking allOk st' (some u) bid2 body).2.transactions =
        st'.transactions := by
    intro st' bid2 b2 e hfind2 hacc2 hfound2
    rw [updateBooking_complete_skips st' u bid2 b2 body e hfind2 hacc2 hst hps hfound2]
    rw [saveBooking_transactions, syncBookingCount_transactions]
  have htx1 : (updateBooking allOk st (some u) bid body).2.transactions =
      st.transactions ++ [earnTxOf (mergedBooking b body u)] := by
    rw [hrun, saveBooking_transactions, syncBookingCount_transactions]
  refine ⟨htx1, ?_, hskips⟩
  have hfind1 : findBooking (updateBooking allOk st (some u) bid body).2 bid =
      some (mergedBooking b body u) := by
    rw [hrun]
    apply findBooking_saveBooking _ _ b _ _ (mergedBooking_id b body u)
    rw [findBooking_ext _ st bid]
    · exact hfind
    · rw [syncBookingCount_bookings]
  have hacc1 : canAccessBooking (mergedBooking b body u) u = true := by
    rw [canAccessBooking_fields b (mergedBooking b body u) u
      (mergedBooking_customerId b body u) (mergedBooking_providerId b body u)]
    exact hacc
  have hfound1 : findEarning (updateBooking allOk st (some u) bid body).2
      (mergedBooking b body u).providerId (mergedBooking b body u).serviceName =
      some (earnTxOf (mergedBooking b body u)) := by
    rw [findEarning_ext _
      { st with transactions := st.transactions ++ [earnTxOf (mergedBooking b body u)] }
      _ _ htx1]
    apply findEarning_after_create
    rw [mergedBooking_providerId, mergedBooking_serviceName]
    exact hnoearn
  exact hskips (updateBooking allOk st (some u) bid body).2 bid
    (mergedBooking b body u) (earnTxOf (mergedBooking b body u))
    hfind1 hacc1 hfound1

/-- Counterexample for C4 as stated: bookings `b6` and `b7` are distinct
completed-and-paid bookings of the same service, yet after completing both
only one provider-earning transaction exists — the second booking receives
none because the note lookup matches the first booking's earning. -/
theorem updateBooking_earning_once_per_service_cex :
    (updateBooking allOk
        (updateBooking allOk
          (sampleSt [sampleBooking "b6" 500 "confirmed" "paid",
            sampleBooking "b7" 700 "confirmed" "paid"])
          (some cust1) "b6" completeBody).2
        (some cust1) "b7" completeBody).1 =
      UpdateResp.ok (mergedBooking (sampleBooking "b7" 700 "confirmed" "paid")
        completeBody cust1) ∧
    (earnTxs
        (updateBooking allOk
          (updateBooking allOk
            (sampleSt [sampleBooking "b6" 500 "confirmed" "paid",
              sampleBooking "b7" 700 "confirmed" "paid"])
            (some cust1) "b6" completeBody).2
          (some cust1) "b7" completeBody).2.transactions "p1").length = 1 := by
  decide

/-- Witness for the amended C4 at a concrete input: completing paid booking
`b1` (800 THB) twice appends one earning transaction and then nothing. -/
theorem updateBooking_earning_once_per_service_witness :
    (updateBooking allOk (sampleSt [sampleBooking "b1" 800 "confirmed" "paid"])
        (some cust1) "b1" completeBody).2.transactions =
      (sampleSt [sampleBooking "b1" 800 "confirmed" "paid"]).transactions ++
        [earnTxOf (mergedBooking (sampleBooking "b1" 800 "confirmed" "paid")
          completeBody cust1)] ∧
    (updateBooking allOk
        (updateBooking allOk (sampleSt [sampleBooking "b1" 800 "confirmed" "paid"])
          (some cust1) "b1" completeBody).2
        (some cust1) "b1" completeBody).2.transactions =
      (updateBooking allOk (sampleSt [sampleBooking "b1" 800 "confirmed" "paid"])
        (some cust1) "b1" completeBody).2.transactions := by
  have h := updateBooking_earning_once_per_service
    (sampleSt [sampleBooking "b1" 800 "confirmed" "paid"]) cust1 "b1"
    (sampleBooking "b1" 800 "confirmed" "paid") completeBody
    (by decide) (by decide) rfl rfl rfl (by decide) (by decide)
  exact ⟨h.1, h.2.1⟩

/-! ## Review-aggregation lemmas -/

theorem find_mapUpdate_service (l : List Service) (sid : String) (f : Service → Service)
    (hf : ∀ s, (f s).sid = s.sid) :
    (l.map (fun s => if s.sid == sid then f s else s)).find? (fun s => s.sid == sid) =
      (l.find? (fun s => s.sid == sid)).map f := by
  induction l with
  | nil => rfl
  | cons y ys ih =>
      simp only [List.map_cons]
      by_cases hy : y.sid = sid
      · have h1 : (if y.sid == sid then f y else y) = f y := by simp [hy]
        rw [h1]
        rw [List.find?_cons_of_pos _ (by simp [hf, hy])]
        rw [List.find?_cons_of_pos _ (by simp [hy])]
        rfl
      · have h1 : (if y.sid == sid then f y else y) = y := by simp [hy]
        rw [h1]
        rw [List.find?_cons_of_neg _ (by simp [hy])]
        rw [List.find?_cons_of_neg _ (by simp [hy])]
        exact ih

theorem updateServiceReviewStats_reviews (st : St) (sid : String) :
    (updateServiceReviewStats st sid).reviews = st.reviews := rfl

/-- The recomputation writes the rounded mean and the count of the store's
reviews to the targeted service. -/
theorem updateServiceReviewStats_spec (st : St) (sid : String) (s' : Service)
    (hfind : findService (updateServiceReviewStats st sid) sid = some s') :
    s'.reviewCount = (reviewsOf st sid).length ∧
    s'.rating = recomputedRating (reviewsOf st sid) := by
  unfold findService updateServiceReviewStats at hfind
  simp only at hfind
  rw [find_mapUpdate_service st.services sid
    (fun s => { s with rating := recomputedRating (reviewsOf st sid),
                       reviewCount := (reviewsOf st sid).length })
    (fun s => rfl)] at hfind
  rcases hfs : st.services.find? (fun s => s.sid == sid) with _ | s0
  · rw [hfs] at hfind
    exact Option.noConfusion hfind
  · rw [hfs] at hfind
    simp only [Option.map_some'] at hfind
    have h := Option.some.inj hfind
    rw [← h]
    exact ⟨rfl, rfl⟩

/-- **C8** — after every review creation, rating-changing update, or
deletion, the targeted service's `rating` equals the mean of the remaining
ratings rounded to two decimals and its `reviewCount` equals the number of
remaining reviews; with zero remaining reviews the recomputed rating is 0. -/
theorem review_aggregation_consistent (st : St) (u : Actor) :
    (∀ (bodyC : CreateReviewBody) (fresh : String) (r : Review) (st' : St),
        createReview st (some u) bodyC fresh = (ReviewResp.created r, st') →
        ∀ s', findService st' r.serviceId = some s' →
          s'.reviewCount = (reviewsOf st' r.serviceId).length ∧
          s'.rating = recomputedRating (reviewsOf st' r.serviceId)) ∧
    (∀ (rid : String) (bodyU : UpdateReviewBody) (q : Rat) (r : Review) (st' : St),
        bodyU.rating = some q →
        updateReview st (some u) rid bodyU = (ReviewResp.updated r, st') →
        ∀ s', findService st' r.serviceId = some s' →
          s'.reviewCount = (reviewsOf st' r.serviceId).length ∧
          s'.rating = recomputedRating (reviewsOf st' r.serviceId)) ∧
    (∀ (rid : String) (r0 : Review) (st' : St),
        findReview st rid = some r0 →
        deleteReview st (some u) rid = (ReviewResp.deleted, st') →
        ∀ s', findService st' r0.serviceId = some s' →
          s'.reviewCount = (reviewsOf st' r0.serviceId).length ∧
          s'.rating = recomputedRating (reviewsOf st' r0.serviceId)) := by
  have hfin : ∀ (stA : St) (sid : String) (r : Review) (st' : St),
      st' = updateServiceReviewStats stA sid → sid = r.serviceId →
      ∀ s', findService st' r.serviceId = some s' →
        s'.reviewCount = (reviewsOf st' r.serviceId).length ∧
        s'.rating = recomputedRating (reviewsOf st' r.serviceId) := by
    intro stA sid r st' hst' hsid s' hfind'
    subst hst'
    subst hsid
    have hrv : reviewsOf (updateServiceReviewStats stA r.serviceId) r.serviceId =
        reviewsOf stA r.serviceId := rfl
    rw [hrv]
    exact updateServiceReviewStats_spec _ _ _ hfind'
  refine ⟨?_, ?_, ?_⟩
  · intro bodyC fresh r st' hrun s' hfind'
    unfold createReview at hrun
    split at hrun
    · simp at hrun
    · split at hrun
      · simp at hrun
      · split at hrun
        · simp at hrun
        · split at hrun
          · simp at hrun
          · split at hrun
            · simp at hrun
            · split at hrun
              · simp at hrun
              · split at hrun
                · simp at hrun
                · split at hrun
                  · simp at hrun
                  · split at hrun
                    · simp at hrun
                    · split at hrun
                      · simp at hrun
                      · split at hrun
                        · simp at hrun
                        · split at hrun
                          · simp at hrun
                          · split at hrun
                            · simp at hrun
                            · rw [Prod.mk.injEq] at hrun
                              obtain ⟨hr, hst'⟩ := hrun
                              have hr2 := ReviewResp.created.inj hr
                              refine hfin _ _ r st' hst'.symm ?_ s' hfind'
                              rw [← hr2]
  · intro rid bodyU q r st' hq hrun s' hfind'
    unfold updateReview at hrun
    simp only [hq] at hrun
    split at hrun
    · simp at hrun
    · split at hrun
      · simp at hrun
      · split at hrun
        · simp at hrun
        · rw [Prod.mk.injEq] at hrun
          obtain ⟨hr, hst'⟩ := hrun
          have hr2 := ReviewResp.updated.inj hr
          refine hfin _ _ r st' hst'.symm ?_ s' hfind'
          rw [← hr2]
  · intro rid r0 st' hfr hrun s' hfind'
    unfold deleteReview at hrun
    simp only [hfr] at hrun
    split at hrun
    · simp at hrun
    · rw [Prod.mk.injEq] at hrun
      obtain ⟨hr, hst'⟩ := hrun
      exact hfin _ _ r0 st' hst'.symm rfl s' hfind'

/-- Witness for C8 at a concrete input: with one rating-5 review recorded,
creating a second review with rating 4 leaves service `s1` with rating 4.5
and reviewCount 2. -/
theorem review_aggregation_consistent_witness :
    ({ sid := "s1", providerId := "p1", name := "Svc", rating := 9 / 2,
       reviewCount := 2, bookingCount := 0 } : Service).reviewCount =
      (reviewsOf (createReview
        { services := [{ sid := "s1", providerId := "p1", name := "Svc" }],
          bookings := [sampleBooking "b1" 100 "completed" "paid"],
          reviews := [{ rid := "r0", bookingId := "b0", serviceId := "s1",
                        customerId := "cX", rating := 5 }] }
        (some cust1)
        { serviceId := "s1", bookingId := "b1", rating := some 4 } "r1").2
        "s1").length ∧
    ({ sid := "s1", providerId := "p1", name := "Svc", rating := 9 / 2,
       reviewCount := 2, bookingCount := 0 } : Service).rating =
      recomputedRating (reviewsOf (createReview
        { services := [{ sid := "s1", providerId := "p1", name := "Svc" }],
          bookings := [sampleBooking "b1" 100 "completed" "paid"],
          reviews := [{ rid := "r0", bookingId := "b0", serviceId := "s1",
                        customerId := "cX", rating := 5 }] }
        (some cust1)
        { serviceId := "s1", bookingId := "b1", rating := some 4 } "r1").2
        "s1") := by
  have hresp : (createReview
      { services := [{ sid := "s1", providerId := "p1", name := "Svc" }],
        bookings := [sampleBooking "b1" 100 "completed" "paid"],
        reviews := [{ rid := "r0", bookingId := "b0", serviceId := "s1",
                      customerId := "cX", rating := 5 }] }
      (some cust1)
      { serviceId := "s1", bookingId := "b1", rating := some 4 } "r1").1 =
      ReviewResp.created { rid := "r1", bookingId := "b1", serviceId := "s1", customerId := "c1", rating := 4, comment := "" } := by
    decide
  have hrun : createReview
      { services := [{ sid := "s1", providerId := "p1", name := "Svc" }],
        bookings := [sampleBooking "b1" 100 "completed" "paid"],
        reviews := [{ rid := "r0", bookingId := "b0", serviceId := "s1",
                      customerId := "cX", rating := 5 }] }
      (some cust1)
      { serviceId := "s1", bookingId := "b1", rating := some 4 } "r1" =
      (ReviewResp.created { rid := "r1", bookingId := "b1", serviceId := "s1", customerId := "c1", rating := 4, comment := "" },
        (createReview
          { services := [{ sid := "s1", providerId := "p1", name := "Svc" }],
            bookings := [sampleBooking "b1" 100 "completed" "paid"],
            reviews := [{ rid := "r0", bookingId := "b0", serviceId := "s1",
                          customerId := "cX", rating := 5 }] }
          (some cust1)
          { serviceId := "s1", bookingId := "b1", rating := some 4 } "r1").2) := by
    rw [Prod.ext_iff]
    exact ⟨hresp, rfl⟩
  have hrl : reviewsOf (updateServiceReviewStats { services := [{ sid := "s1", providerId := "p1", name := "Svc" }], bookings := [sampleBooking "b1" 100 "completed" "paid"], reviews := [{ rid := "r0", bookingId := "b0", serviceId := "s1", customerId := "cX", rating := 5, comment := "" }, { rid := "r1", bookingId := "b1", serviceId := "s1", customerId := "c1", rating := 4, comment := "" }] } "s1") "s1" = [{ rid := "r0", bookingId := "b0", serviceId := "s1", customerId := "cX", rating := 5, comment := "" }, { rid := "r1", bookingId := "b1", serviceId := "s1", customerId := "c1", rating := 4, comment := "" }] := by
    decide
  have hrr : recomputedRating (reviewsOf (updateServiceReviewStats { services := [{ sid := "s1", providerId := "p1", name := "Svc" }], bookings := [sampleBooking "b1" 100 "completed" "paid"], reviews := [{ rid := "r0", bookingId := "b0", serviceId := "s1", customerId := "cX", rating := 5, comment := "" }, { rid := "r1", bookingId := "b1", serviceId := "s1", customerId := "c1", rating := 4, comment := "" }] } "s1") "s1") = 9 / 2 := by
    rw [hrl]
    simp [recomputedRating, roundTo2]
    norm_num
  have hfind : findService (createReview { services := [{ sid := "s1", providerId := "p1", name := "Svc" }], bookings := [sampleBooking "b1" 100 "completed" "paid"], reviews := [{ rid := "r0", bookingId := "b0", serviceId := "s1", customerId := "cX", rating := 5 }] } (some cust1) { serviceId := "s1", bookingId := "b1", rating := some 4 } "r1").2 "s1" = some { sid := "s1", providerId := "p1", name := "Svc", rating := 9 / 2, reviewCount := 2, bookingCount := 0 } := by
    have hst2 : (createReview { services := [{ sid := "s1", providerId := "p1", name := "Svc" }], bookings := [sampleBooking "b1" 100 "completed" "paid"], reviews := [{ rid := "r0", bookingId := "b0", serviceId := "s1", customerId := "cX", rating := 5 }] } (some cust1) { serviceId := "s1", bookingId := "b1", rating := some 4 } "r1").2 = updateServiceReviewStats { services := [{ sid := "s1", providerId := "p1", name := "Svc" }], bookings := [sampleBooking "b1" 100 "completed" "paid"], reviews := [{ rid := "r0", bookingId := "b0", serviceId := "s1", customerId := "cX", rating := 5, comment := "" }, { rid := "r1", bookingId := "b1", serviceId := "s1", customerId := "c1", rating := 4, comment := "" }] } "s1" := rfl
    rw [hst2]
    have hstep : findService (updateServiceReviewStats { services := [{ sid := "s1", providerId := "p1", name := "Svc" }], bookings := [sampleBooking "b1" 100 "completed" "paid"], reviews := [{ rid := "r0", bookingId := "b0", serviceId := "s1", customerId := "cX", rating := 5, comment := "" }, { rid := "r1", bookingId := "b1", serviceId := "s1", customerId := "c1", rating := 4, comment := "" }] } "s1") "s1" =
        some { sid := "s1", providerId := "p1", name := "Svc",
                rating := recomputedRating (reviewsOf { services := [{ sid := "s1", providerId := "p1", name := "Svc" }], bookings := [sampleBooking "b1" 100 "completed" "paid"], reviews := [{ rid := "r0", bookingId := "b0", serviceId := "s1", customerId := "cX", rating := 5, comment := "" }, { rid := "r1", bookingId := "b1", serviceId := "s1", customerId := "c1", rating := 4, comment := "" }] } "s1"),
                reviewCount := (reviewsOf { services := [{ sid := "s1", providerId := "p1", name := "Svc" }], bookings := [sampleBooking "b1" 100 "completed" "paid"], reviews := [{ rid := "r0", bookingId := "b0", serviceId := "s1", customerId := "cX", rating := 5, comment := "" }, { rid := "r1", bookingId := "b1", serviceId := "s1", customerId := "c1", rating := 4, comment := "" }] } "s1").length, bookingCount := 0 } := rfl
    rw [hstep]
    have hrl2 : reviewsOf ({ services := [{ sid := "s1", providerId := "p1", name := "Svc" }], bookings := [sampleBooking "b1" 100 "completed" "paid"], reviews := [{ rid := "r0", bookingId := "b0", serviceId := "s1", customerId := "cX", rating := 5, comment := "" }, { rid := "r1", bookingId := "b1", serviceId := "s1", customerId := "c1", rating := 4, comment := "" }] } : St) "s1" = [{ rid := "r0", bookingId := "b0", serviceId := "s1", customerId := "cX", rating := 5, comment := "" }, { rid := "r1", bookingId := "b1", serviceId := "s1", customerId := "c1", rating := 4, comment := "" }] := by decide
    rw [hrl2]
    have hrr2 : recomputedRating [({ rid := "r0", bookingId := "b0", serviceId := "s1", customerId := "cX", rating := 5, comment := "" } : Review), { rid := "r1", bookingId := "b1", serviceId := "s1", customerId := "c1", rating := 4, comment := "" }] = 9 / 2 := by
      rw [← hrl]
      exact hrr
    rw [hrr2]
    rfl
  exact (review_aggregation_consistent { services := [{ sid := "s1", providerId := "p1", name := "Svc" }], bookings := [sampleBooking "b1" 100 "completed" "paid"], reviews := [{ rid := "r0", bookingId := "b0", serviceId := "s1", customerId := "cX", rating := 5 }] } cust1).1
    { serviceId := "s1", bookingId := "b1", rating := some 4 } "r1"
    { rid := "r1", bookingId := "b1", serviceId := "s1", customerId := "c1", rating := 4, comment := "" } _ hrun
    { sid := "s1", providerId := "p1", name := "Svc", rating := 9 / 2, reviewCount := 2, bookingCount := 0 } hfind


/-- Witness for C6 at a concrete input: with an oracle that fails every
ledger write, cancelling paid booking `b1` (1000 THB) with a refund returns
the ledger-failure error and the bookings store is unchanged. -/
theorem updateBooking_ledger_failure_preserves_booking_witness :
    ((updateBooking (fun _ => true)
        (sampleSt [sampleBooking "b1" 1000 "confirmed" "paid"]) (some cust1) "b1"
        (cancelBody "customer")).2).bookings =
      (sampleSt [sampleBooking "b1" 1000 "confirmed" "paid"]).bookings := by
  exact updateBooking_ledger_failure_preserves_booking (fun _ => true)
    (sampleSt [sampleBooking "b1" 1000 "confirmed" "paid"]) (some cust1) "b1"
    (cancelBody "customer") UpdateResp.ledgerWriteFailed
    (updateBooking (fun _ => true)
      (sampleSt [sampleBooking "b1" 1000 "confirmed" "paid"]) (some cust1) "b1"
      (cancelBody "customer")).2
    (by decide) rfl

end RentalBackend
